import Mathlib

/-!
# flare: node monitor handler

A shallow embedding of `src/lib/handler_monitor.cc` (class
`gree::flare::handler_monitor`).

* The three `int` members `_monitor_threshold`, `_monitor_interval` and
  `_down_state` are carried in a record that every member function takes and
  returns.  C++ `int` is 32 bits wide; the one arithmetic operation of the
  file, `_down_state++`, is embedded with two's-complement wrap-around
  (`int_wrap`).
* Calls into collaborators whose code is outside this file (the worker
  thread, the connection, the ping operation, the cluster directory, the
  queue payload) are embedded as follows: what the handler *reads* from them
  is an input of the step (`loop_input`), what the handler *does* to them is
  appended to a list of `effect`s.
* Logging, the `set_state` / `set_op` / `set_peer` diagnostics and the
  reference counting of the queue message (`sync_unref`) do not influence
  control flow or the members and are left out; so are the socket operations
  behind `_process_monitor`, of which only the results are inputs.
* The loop is run over the list of inputs of its successive passes, so a run
  is a finite prefix of the execution of `for (;;)`.
-/

namespace flare

/-- The value of `ETIMEDOUT` from `<errno.h>` (Linux). -/
def ETIMEDOUT : Int := 110

/-- Two's-complement wrap of an integer into the range of a 32-bit `int`. -/
def int_wrap (x : Int) : Int := (x + 2147483648) % 4294967296 - 2147483648

/-- What the handler does to its collaborators, in program order.
`call_down` and `call_up` mark entry into `_down()` and `_up()`. -/
inductive effect where
  /-- the call `_thread->dequeue(q, interval)` -/
  | dequeue (interval : Int)
  /-- the call `_cluster->down_node(name, port)` -/
  | down_node (name : String) (port : Int)
  /-- the call `_cluster->up_node(name, port)` -/
  | up_node (name : String) (port : Int)
  /-- the call `r->run(_connection)` on a `queue_node_sync` payload -/
  | node_sync_run
  /-- entry into `handler_monitor::_down` -/
  | call_down
  /-- entry into `handler_monitor::_up` -/
  | call_up
  deriving DecidableEq, Repr

/-- A queue message as the handler sees it: its tag (`get_ident()`), the
getters of `queue_update_monitor_option`, and the value that
`queue_node_sync::run(connection)` returns when it is invoked. -/
structure thread_queue where
  ident : String
  monitor_threshold : Int
  monitor_interval : Int
  run_r : Int
  deriving DecidableEq, Repr

/-- The members of `handler_monitor`. -/
structure handler_monitor where
  _node_server_name : String
  _node_server_port : Int
  _monitor_threshold : Int
  _monitor_interval : Int
  _down_state : Int
  deriving DecidableEq, Repr

/-- The outcome of a member function: return value, members afterwards,
effects performed. -/
structure ret where
  r : Int
  st : handler_monitor
  fx : List effect
  deriving DecidableEq, Repr

namespace handler_monitor

/-- The constructor: `_monitor_threshold(0), _monitor_interval(0), _down_state(0)`. -/
def ctor (node_server_name : String) (node_server_port : Int) : handler_monitor :=
  { _node_server_name := node_server_name
    _node_server_port := node_server_port
    _monitor_threshold := 0
    _monitor_interval := 0
    _down_state := 0 }

/-- The member function `handler_monitor::_down`. -/
def _down (s : handler_monitor) : ret :=
  let s1 := { s with _down_state := int_wrap (s._down_state + 1) }
  if s1._down_state = s1._monitor_threshold then
    { r := 0, st := s1,
      fx := [effect.call_down, effect.down_node s1._node_server_name s1._node_server_port] }
  else
    { r := 0, st := s1, fx := [effect.call_down] }

/-- The member function `handler_monitor::_up`. -/
def _up (s : handler_monitor) : ret :=
  if s._down_state ≥ s._monitor_threshold then
    { r := 0, st := { s with _down_state := 0 },
      fx := [effect.call_up, effect.up_node s._node_server_name s._node_server_port] }
  else
    { r := 0, st := { s with _down_state := 0 }, fx := [effect.call_up] }

/-- The member function `handler_monitor::_process_monitor`; the three arguments are what
`_connection->is_available()`, `_connection->open(...)` and
`p->run_client()` return when called. -/
def _process_monitor (is_available : Bool) (open_r : Int) (run_client_r : Int) : Int :=
  if is_available = false ∧ open_r < 0 then -1
  else if run_client_r < 0 then -1
  else 0

/-- The member function `handler_monitor::_process_queue`. -/
def _process_queue (s : handler_monitor) (q : thread_queue) : ret :=
  if q.ident = "update_monitor_option" then
    { r := 0
      st := { s with _monitor_threshold := q.monitor_threshold
                     _monitor_interval := q.monitor_interval }
      fx := [] }
  else if q.ident = "node_sync" then
    if s._down_state ≥ s._monitor_threshold then
      { r := -1, st := s, fx := [] }
    else
      { r := q.run_r, st := s, fx := [effect.node_sync_run] }
  else
    { r := -1, st := s, fx := [] }

end handler_monitor

/-- Everything one pass through the body of the `for (;;)` loop of
`handler_monitor::run` reads from outside the handler. -/
structure loop_input where
  /-- the value of `is_shutdown_request()` at the top of the loop -/
  shutdown_top : Bool
  /-- the return value of `dequeue` -/
  dequeue_r : Int
  /-- the message `dequeue` stored in `q`; read only when `dequeue_r` is not
  `ETIMEDOUT` -/
  q : thread_queue
  /-- the value of `is_shutdown_request()` right after `dequeue` -/
  shutdown_after : Bool
  /-- the value of `get_node(...).node_state == cluster::state_down` -/
  node_down : Bool
  /-- the value of `_connection->is_available()` -/
  is_available : Bool
  /-- the value of `_connection->open(...)` inside `_process_monitor` -/
  open_r : Int
  /-- the value of `p->run_client()` -/
  run_client_r : Int
  deriving DecidableEq, Repr

/-- One pass through the loop body of `handler_monitor::run`. -/
structure iteration where
  /-- members when the pass starts -/
  pre : handler_monitor
  /-- what the pass read -/
  input : loop_input
  /-- members when the pass ends -/
  post : handler_monitor
  /-- effects of the pass -/
  fx : List effect
  /-- the pass left the loop through `break` -/
  exited : Bool
  deriving DecidableEq, Repr

namespace handler_monitor

/-- The "sync w/ node_map" assignment of the loop body. -/
def resync (s : handler_monitor) (node_down : Bool) : handler_monitor :=
  if node_down then { s with _down_state := s._monitor_threshold }
  else { s with _down_state := 0 }

/-- The body of the `for (;;)` loop of `handler_monitor::run`. -/
def loop_body (s : handler_monitor) (i : loop_input) : iteration :=
  if i.shutdown_top then
    { pre := s, input := i, post := s, fx := [], exited := true }
  else
    let fx0 := [effect.dequeue s._monitor_interval]
    if i.shutdown_after then
      { pre := s, input := i, post := s, fx := fx0, exited := true }
    else
      let s1 := s.resync i.node_down
      if i.dequeue_r = ETIMEDOUT then
        if _process_monitor i.is_available i.open_r i.run_client_r < 0 then
          let d := s1._down
          { pre := s, input := i, post := d.st, fx := fx0 ++ d.fx, exited := false }
        else
          let u := s1._up
          { pre := s, input := i, post := u.st, fx := fx0 ++ u.fx, exited := false }
      else
        let p := s1._process_queue i.q
        if p.r < 0 then
          let d := p.st._down
          { pre := s, input := i, post := d.st, fx := fx0 ++ p.fx ++ d.fx, exited := false }
        else
          { pre := s, input := i, post := p.st, fx := fx0 ++ p.fx, exited := false }

/-- The `for (;;)` loop of `handler_monitor::run` over the inputs of its
successive passes: the list of passes made, ending with the pass that
leaves the loop, if the inputs reach one. -/
def loop (s : handler_monitor) : List loop_input → List iteration
  | [] => []
  | i :: rest =>
    let it := s.loop_body i
    if it.exited then [it] else it :: loop it.post rest

/-- The part of `handler_monitor::run` before the loop: open the
connection, `_down()` if that fails.  `open_r` is what `c->open(...)`
returns. -/
def connect (s : handler_monitor) (open_r : Int) : ret :=
  if open_r < 0 then s._down else { r := 0, st := s, fx := [] }

/-- The member function `handler_monitor::run` on a freshly constructed handler: the connect
step and the passes through the loop. -/
def run (node_server_name : String) (node_server_port : Int) (open_r : Int)
    (inputs : List loop_input) : ret × List iteration :=
  let c := (ctor node_server_name node_server_port).connect open_r
  (c, c.st.loop inputs)

end handler_monitor

/-- The members after a list of passes that started from `s`. -/
def final_state (s : handler_monitor) (its : List iteration) : handler_monitor :=
  (its.getLast?.map iteration.post).getD s

/-- All effects of a list of passes, in order. -/
def all_fx (its : List iteration) : List effect :=
  (its.map iteration.fx).flatten

/-- The number of `down_node` publications in a list of effects. -/
def count_down_node (fx : List effect) : Nat :=
  fx.countP fun e => match e with
    | effect.down_node _ _ => true
    | _ => false

/-- The number of `up_node` publications in a list of effects. -/
def count_up_node (fx : List effect) : Nat :=
  fx.countP fun e => match e with
    | effect.up_node _ _ => true
    | _ => false

/-- A pass whose dequeue timed out and whose ping failed. -/
def ping_fails (i : loop_input) : Prop :=
  i.shutdown_top = false ∧ i.shutdown_after = false ∧ i.dequeue_r = ETIMEDOUT ∧
    handler_monitor._process_monitor i.is_available i.open_r i.run_client_r < 0

instance (i : loop_input) : Decidable (ping_fails i) := by
  unfold ping_fails; infer_instance

/-- A pass whose dequeue timed out and whose ping succeeded. -/
def ping_succeeds (i : loop_input) : Prop :=
  i.shutdown_top = false ∧ i.shutdown_after = false ∧ i.dequeue_r = ETIMEDOUT ∧
    ¬ handler_monitor._process_monitor i.is_available i.open_r i.run_client_r < 0

instance (i : loop_input) : Decidable (ping_succeeds i) := by
  unfold ping_succeeds; infer_instance

/-- An idle message, used where a pass delivers none. -/
def no_queue : thread_queue :=
  { ident := "", monitor_threshold := 0, monitor_interval := 0, run_r := 0 }

/-- The input of a pass with a timed-out dequeue, an available connection and
the given directory state and ping result. -/
def ping_input (node_down : Bool) (run_client_r : Int) : loop_input :=
  { shutdown_top := false, dequeue_r := ETIMEDOUT, q := no_queue, shutdown_after := false,
    node_down := node_down, is_available := true, open_r := 0, run_client_r := run_client_r }

/-- The input of a pass whose dequeue delivered the message `q`. -/
def queue_input (node_down : Bool) (q : thread_queue) : loop_input :=
  { shutdown_top := false, dequeue_r := 0, q := q, shutdown_after := false,
    node_down := node_down, is_available := true, open_r := 0, run_client_r := 0 }

/-- An `update_monitor_option` message. -/
def update_monitor_option (threshold interval : Int) : thread_queue :=
  { ident := "update_monitor_option", monitor_threshold := threshold,
    monitor_interval := interval, run_r := 0 }

/-- A `node_sync` message whose `run` returns `run_r`. -/
def node_sync (run_r : Int) : thread_queue :=
  { ident := "node_sync", monitor_threshold := 0, monitor_interval := 0, run_r := run_r }

/-- The passes `a, a+1, ..., a+b-1` of a list of passes. -/
def segment (a b : Nat) (its : List iteration) : List iteration :=
  (its.drop a).take b

/-- An assumption on the cluster directory, used as a hypothesis: it honours
the handler's publications, that is, every pass that reads the directory after
a pass that published `down_node`, up to and including the next pass that
publishes `up_node`, reads the peer as down.  `pending` tells whether a
`down_node` publication is outstanding when the list starts. -/
def directory_follows : Bool → List iteration → Bool
  | _, [] => true
  | pending, it :: rest =>
    (!pending || it.exited || it.input.node_down) &&
      directory_follows
        (if 0 < count_up_node it.fx then false
         else if 0 < count_down_node it.fx then true
         else pending)
        rest

/-- The peer of the concrete scenarios. -/
def peer : handler_monitor := handler_monitor.ctor "node1" 12121

/-- Scenario "escalation at threshold": the options (3, 100) arrive, then
three dequeues time out and each ping fails, the directory reading the peer
as not down throughout. -/
def escalation_inputs : List loop_input :=
  [queue_input false (update_monitor_option 3 100),
   ping_input false (-1), ping_input false (-1), ping_input false (-1)]

/-- A run in which the handler escalates: the options (1, 100) arrive, a
ping fails while the directory reads the peer as not down, and two more
pings fail while it reads the peer as down. -/
def failure_run_inputs : List loop_input :=
  [queue_input false (update_monitor_option 1 100),
   ping_input false (-1), ping_input true (-1), ping_input true (-1)]

/-- The handler for `peer` with options (1, 100) after one failed ping. -/
def escalated : handler_monitor :=
  { peer with _monitor_threshold := 1, _monitor_interval := 100, _down_state := 1 }

/-- A run with recovery: the options (1, 100) arrive, a ping fails, then the
directory reads the peer as down and the ping is answered. -/
def recovery_inputs : List loop_input :=
  [queue_input false (update_monitor_option 1 100), ping_input false (-1), ping_input true 0]

/-- The handler for `peer` with options (3, 100) and `down_state = 4`. -/
def down_at_three : handler_monitor :=
  { peer with _monitor_threshold := 3, _monitor_interval := 100, _down_state := 4 }

/-- The handler for `peer` with options (3, 100) after one failed ping. -/
def failed_once_at_three : handler_monitor :=
  { peer with _monitor_threshold := 3, _monitor_interval := 100, _down_state := 1 }

/-- The handler for `peer` with options (3, 100) and `down_state = 2`. -/
def failed_twice_at_three : handler_monitor :=
  { peer with _monitor_threshold := 3, _monitor_interval := 100, _down_state := 2 }

/-- The handler for `peer` with options (3, 60000). -/
def waiting : handler_monitor :=
  { peer with _monitor_threshold := 3, _monitor_interval := 60000 }

/-- The input of a pass in which the shutdown flag is set while the handler
waits in `dequeue`, which then returns a `node_sync` message. -/
def shutdown_mid_wait : loop_input :=
  { queue_input false (node_sync 0) with shutdown_after := true }

/-! ## `time_util` and `time_watcher_processor`

A shallow embedding of `src/lib/time_util.cc` and of
`src/lib/time_watcher_processor.cc`.

* The fields of `struct timespec` (`time_t tv_sec`, `long tv_nsec`) are
  integers.  The arithmetic of `sub` and `msec_to_timespec` is embedded with
  the C conversions and the two's-complement wrap-around of the two data
  models on which `long` and `time_t` are 32 bits (`ILP32`) and 64 bits
  (`LP64`) wide.  `is_bigger` only compares the fields.
* In `time_watcher_processor` the flag `_shutdown_requested` is written by
  `request_shutdown()` from another thread.  A tick of the loop reads it at two
  places; whether `request_shutdown()` has run before each of them is an
  input of the tick (`tick_input`).
-/

/-- The C type `struct timespec`. -/
structure timespec where
  tv_sec : Int
  tv_nsec : Int
  deriving DecidableEq, Repr

/-- The widths of `long` and `time_t`. -/
inductive data_model where
  /-- the data model with 32-bit `int`, `long` and `time_t` -/
  | ILP32
  /-- the data model with 32-bit `int` and 64-bit `long` and `time_t` -/
  | LP64
  deriving DecidableEq, Repr

/-- Wrap of an integer into the range of a signed `long`. -/
def long_wrap : data_model → Int → Int
  | data_model.ILP32, x => (x + 2147483648) % 4294967296 - 2147483648
  | data_model.LP64, x => (x + 9223372036854775808) % 18446744073709551616 - 9223372036854775808

/-- Wrap of an integer into the range of `uint32_t`. -/
def uint32_wrap (x : Int) : Int := x % 4294967296

/-- Wrap into the type in which C evaluates an operation on a `uint32_t` and a
`long`: `unsigned long` when `long` is 32 bits wide, `long` when it is 64
bits wide. -/
def uint32_long_wrap : data_model → Int → Int
  | data_model.ILP32, x => x % 4294967296
  | data_model.LP64, x => long_wrap data_model.LP64 x

/-- The integer is a value of a signed `long` (and of `time_t`). -/
def in_long_range : data_model → Int → Prop
  | data_model.ILP32, x => -2147483648 ≤ x ∧ x ≤ 2147483647
  | data_model.LP64, x => -9223372036854775808 ≤ x ∧ x ≤ 9223372036854775807

instance (m : data_model) (x : Int) : Decidable (in_long_range m x) := by
  cases m <;> unfold in_long_range <;> infer_instance

namespace time_util

/-- The function `time_util::msec_to_timespec`; `msec` is the value of the
`uint32_t` argument. -/
def msec_to_timespec (m : data_model) (msec : Nat) : timespec :=
  let tv_sec := long_wrap m (uint32_wrap ((msec : Int) / 1000))
  let tv_nsec := long_wrap m
    (uint32_long_wrap m
      (uint32_long_wrap m
        (uint32_long_wrap m ((msec : Int) - long_wrap m (tv_sec * 1000)) * 1000) * 1000))
  { tv_sec := tv_sec, tv_nsec := tv_nsec }

/-- The function `time_util::sub`; the two subtractions, the decrement and the
addition are those of `time_t` and `long`. -/
def sub (m : data_model) (a b : timespec) : timespec :=
  let result : timespec :=
    { tv_sec := long_wrap m (a.tv_sec - b.tv_sec)
      tv_nsec := long_wrap m (a.tv_nsec - b.tv_nsec) }
  if result.tv_nsec < 0 then
    { tv_sec := long_wrap m (result.tv_sec - 1)
      tv_nsec := long_wrap m (result.tv_nsec + 1000000000) }
  else
    result

/-- The function `time_util::is_bigger`. -/
def is_bigger (a b : timespec) : Bool :=
  if a.tv_sec = b.tv_sec then decide (a.tv_nsec > b.tv_nsec)
  else decide (a.tv_sec > b.tv_sec)

end time_util

/-- The time a `timespec` stands for, in nanoseconds. -/
def timespec.total_nsec (a : timespec) : Int := a.tv_sec * 1000000000 + a.tv_nsec

/-- The nanosecond field is in its normal range. -/
def timespec.normalized (a : timespec) : Prop := 0 ≤ a.tv_nsec ∧ a.tv_nsec < 1000000000

instance (a : timespec) : Decidable a.normalized := by
  unfold timespec.normalized; infer_instance

/-- Both fields are values of their C types. -/
def timespec.in_range (m : data_model) (a : timespec) : Prop :=
  in_long_range m a.tv_sec ∧ in_long_range m a.tv_nsec

instance (m : data_model) (a : timespec) : Decidable (a.in_range m) := by
  unfold timespec.in_range; infer_instance

/-- The seconds of the exact difference of two times: the difference of the
second fields, less one when the nanoseconds need a borrow. -/
def exact_sub_sec (a b : timespec) : Int :=
  a.tv_sec - b.tv_sec - (if a.tv_nsec < b.tv_nsec then 1 else 0)

/-- The largest time on `LP64` with zero nanoseconds. -/
def time_max_lp64 : timespec := { tv_sec := 9223372036854775807, tv_nsec := 0 }

/-- One second before the origin. -/
def time_minus_one : timespec := { tv_sec := -1, tv_nsec := 0 }

/-- The time 5.2 s. -/
def time_5_2 : timespec := { tv_sec := 5, tv_nsec := 200000000 }

/-- The time 3.7 s. -/
def time_3_7 : timespec := { tv_sec := 3, tv_nsec := 700000000 }

/-- The handler for `peer` with threshold 3 and `down_state = INT_MAX`. -/
def at_int_max : handler_monitor :=
  { peer with _monitor_threshold := 3, _down_state := 2147483647 }

/-- A message with a tag the handler does not know. -/
def unknown_queue : thread_queue :=
  { ident := "node_shift", monitor_threshold := 9, monitor_interval := 9, run_r := 0 }

/-- What the time watcher processor does, in program order. -/
inductive watcher_effect where
  /-- the call `log_info(msg, 0)` -/
  | log_info (msg : String)
  /-- the call `_time_watcher.check_timestamps()` -/
  | check_timestamps
  /-- the call `pthread_mutex_lock(&_mutex_shutdown_requested)` -/
  | mutex_lock
  /-- the call `pthread_cond_timedwait(..., &interval_timespec)` -/
  | cond_timedwait (interval : timespec)
  /-- the call `pthread_mutex_unlock(&_mutex_shutdown_requested)` -/
  | mutex_unlock
  deriving DecidableEq, Repr

/-- The members of `time_watcher_processor` that its loop reads. -/
structure time_watcher_processor where
  _polling_interval : timespec
  _shutdown_requested : Bool
  deriving DecidableEq, Repr

/-- What one tick of the loop of `time_watcher_processor::operator()` is told
about the other threads. -/
structure tick_input where
  /-- another thread has run `request_shutdown()` before the test of the flag
  at the top of this tick -/
  request_before_test : Bool
  /-- another thread has run `request_shutdown()` after that test and before
  the test of the flag inside `_sleep_with_shutdown_request_wait()` -/
  request_before_sleep : Bool
  deriving DecidableEq, Repr

/-- One tick of the loop of `time_watcher_processor::operator()`. -/
structure tick where
  /-- members when the tick starts -/
  pre : time_watcher_processor
  /-- what the tick was told -/
  input : tick_input
  /-- members when the tick ends -/
  post : time_watcher_processor
  /-- effects of the tick -/
  fx : List watcher_effect
  /-- the tick left the loop through `break` -/
  exited : Bool
  deriving DecidableEq, Repr

namespace time_watcher_processor

/-- The constructor: `_polling_interval(polling_interval), _shutdown_requested(false)`. -/
def ctor (polling_interval : timespec) : time_watcher_processor :=
  { _polling_interval := polling_interval, _shutdown_requested := false }

/-- The effect of `time_watcher_processor::request_shutdown` on the members. -/
def request_shutdown (p : time_watcher_processor) : time_watcher_processor :=
  { p with _shutdown_requested := true }

/-- The members as the loop reads them when another thread may have run
`request_shutdown()` in between. -/
def observe (p : time_watcher_processor) (requested : Bool) : time_watcher_processor :=
  if requested then p.request_shutdown else p

/-- The member function `time_watcher_processor::_sleep_with_shutdown_request_wait`. -/
def _sleep_with_shutdown_request_wait (p : time_watcher_processor) : List watcher_effect :=
  if p._shutdown_requested = false then
    [watcher_effect.mutex_lock, watcher_effect.cond_timedwait p._polling_interval,
      watcher_effect.mutex_unlock]
  else
    [watcher_effect.mutex_lock, watcher_effect.mutex_unlock]

/-- The body of the `for(;;)` loop of `time_watcher_processor::operator()`. -/
def tick_body (p : time_watcher_processor) (i : tick_input) : tick :=
  let p1 := p.observe i.request_before_test
  if p1._shutdown_requested then
    { pre := p, input := i, post := p1,
      fx := [watcher_effect.log_info "thread shutdown request -> breaking loop"],
      exited := true }
  else if p1._polling_interval.tv_sec = 0 ∧ p1._polling_interval.tv_nsec = 0 then
    { pre := p, input := i, post := p1,
      fx := [watcher_effect.log_info "thread watch disabled -> breaking loop"],
      exited := true }
  else
    let p2 := p1.observe i.request_before_sleep
    { pre := p, input := i, post := p2,
      fx := watcher_effect.check_timestamps :: p2._sleep_with_shutdown_request_wait,
      exited := false }

/-- The member function `time_watcher_processor::operator()` over the inputs
of its successive ticks: the list of ticks made, ending with the tick that
leaves the loop, if the inputs reach one. -/
def operator_call (p : time_watcher_processor) : List tick_input → List tick
  | [] => []
  | i :: rest =>
    let t := p.tick_body i
    if t.exited then [t] else t :: operator_call t.post rest

end time_watcher_processor

/-- All effects of a list of ticks, in order. -/
def all_watcher_fx (ts : List tick) : List watcher_effect :=
  (ts.map tick.fx).flatten

/-- A polling interval of 100 ms. -/
def polling_100ms : timespec := { tv_sec := 0, tv_nsec := 100000000 }


/-! ## Lemmas on the embedding -/

open handler_monitor

theorem int_wrap_succ_ne (t : Int) : int_wrap (t + 1) ≠ t := by
  unfold int_wrap; omega

theorem int_wrap_of_range (x : Int) (h1 : -2147483648 ≤ x) (h2 : x ≤ 2147483647) :
    int_wrap x = x := by
  unfold int_wrap; omega

theorem int_wrap_one : int_wrap (0 + 1) = 1 := by decide

@[simp] theorem count_down_node_nil : count_down_node [] = 0 := rfl

@[simp] theorem count_up_node_nil : count_up_node [] = 0 := rfl

theorem count_down_node_append (a b : List effect) :
    count_down_node (a ++ b) = count_down_node a + count_down_node b := by
  simp [count_down_node, List.countP_append]

theorem count_up_node_append (a b : List effect) :
    count_up_node (a ++ b) = count_up_node a + count_up_node b := by
  simp [count_up_node, List.countP_append]

theorem down_fx (s : handler_monitor) :
    s._down.fx = effect.call_down ::
      (if int_wrap (s._down_state + 1) = s._monitor_threshold
        then [effect.down_node s._node_server_name s._node_server_port] else []) := by
  unfold _down
  by_cases h : int_wrap (s._down_state + 1) = s._monitor_threshold <;> simp [h]

theorem count_down_node_down (s : handler_monitor) :
    count_down_node s._down.fx =
      if int_wrap (s._down_state + 1) = s._monitor_threshold then 1 else 0 := by
  rw [down_fx]
  by_cases h : int_wrap (s._down_state + 1) = s._monitor_threshold <;>
    simp [h, count_down_node]

theorem count_up_node_down (s : handler_monitor) : count_up_node s._down.fx = 0 := by
  rw [down_fx]
  by_cases h : int_wrap (s._down_state + 1) = s._monitor_threshold <;>
    simp [h, count_up_node]

theorem count_down_node_up (s : handler_monitor) : count_down_node s._up.fx = 0 := by
  unfold _up
  by_cases h : s._down_state ≥ s._monitor_threshold <;> simp [h, count_down_node]

theorem count_down_node_process_queue (s : handler_monitor) (q : thread_queue) :
    count_down_node (s._process_queue q).fx = 0 := by
  unfold _process_queue
  split_ifs <;> simp [count_down_node]

theorem count_up_node_process_queue (s : handler_monitor) (q : thread_queue) :
    count_up_node (s._process_queue q).fx = 0 := by
  unfold _process_queue
  split_ifs <;> simp [count_up_node]


@[simp] theorem count_down_node_dequeue (x : Int) (l : List effect) :
    count_down_node (effect.dequeue x :: l) = count_down_node l := by
  simp [count_down_node]

@[simp] theorem count_up_node_dequeue (x : Int) (l : List effect) :
    count_up_node (effect.dequeue x :: l) = count_up_node l := by
  simp [count_up_node]

theorem process_queue_st_of_neg (s : handler_monitor) (q : thread_queue)
    (h : (s._process_queue q).r < 0) :
    (s._process_queue q).st = s := by
  unfold _process_queue at h ⊢
  split_ifs at h ⊢ <;> simp_all

theorem resync_threshold (s : handler_monitor) (b : Bool) :
    (s.resync b)._monitor_threshold = s._monitor_threshold := by
  unfold resync; cases b <;> simp

theorem resync_down_state (s : handler_monitor) (b : Bool) :
    (s.resync b)._down_state = if b then s._monitor_threshold else 0 := by
  unfold resync; cases b <;> simp

theorem down_st (s : handler_monitor) :
    s._down.st = { s with _down_state := int_wrap (s._down_state + 1) } := by
  unfold _down
  by_cases h : int_wrap (s._down_state + 1) = s._monitor_threshold <;> simp [h]

theorem up_st (s : handler_monitor) : s._up.st = { s with _down_state := 0 } := by
  unfold _up
  by_cases h : s._down_state ≥ s._monitor_threshold <;> simp [h]

theorem loop_body_shutdown_top (s : handler_monitor) (i : loop_input)
    (h : i.shutdown_top = true) :
    s.loop_body i = { pre := s, input := i, post := s, fx := [], exited := true } := by
  simp [loop_body, h]

theorem loop_body_shutdown_after (s : handler_monitor) (i : loop_input)
    (h1 : i.shutdown_top = false) (h2 : i.shutdown_after = true) :
    s.loop_body i =
      { pre := s, input := i, post := s, fx := [effect.dequeue s._monitor_interval],
        exited := true } := by
  simp [loop_body, h1, h2]

theorem loop_body_ping_fails (s : handler_monitor) (i : loop_input) (h : ping_fails i) :
    s.loop_body i =
      { pre := s, input := i, post := (s.resync i.node_down)._down.st,
        fx := effect.dequeue s._monitor_interval :: (s.resync i.node_down)._down.fx,
        exited := false } := by
  obtain ⟨h1, h2, h3, h4⟩ := h
  simp [loop_body, h1, h2, h3, h4]

theorem loop_body_ping_succeeds (s : handler_monitor) (i : loop_input)
    (h : ping_succeeds i) :
    s.loop_body i =
      { pre := s, input := i, post := (s.resync i.node_down)._up.st,
        fx := effect.dequeue s._monitor_interval :: (s.resync i.node_down)._up.fx,
        exited := false } := by
  obtain ⟨h1, h2, h3, h4⟩ := h
  simp [loop_body, h1, h2, h3, h4]

theorem loop_body_queue_neg (s : handler_monitor) (i : loop_input)
    (h1 : i.shutdown_top = false) (h2 : i.shutdown_after = false)
    (h3 : i.dequeue_r ≠ ETIMEDOUT)
    (h4 : ((s.resync i.node_down)._process_queue i.q).r < 0) :
    s.loop_body i =
      { pre := s, input := i, post := (s.resync i.node_down)._down.st,
        fx := effect.dequeue s._monitor_interval ::
          (((s.resync i.node_down)._process_queue i.q).fx ++ (s.resync i.node_down)._down.fx),
        exited := false } := by
  have hst := process_queue_st_of_neg _ _ h4
  simp [loop_body, h1, h2, h3, h4, hst]

theorem loop_body_queue_ok (s : handler_monitor) (i : loop_input)
    (h1 : i.shutdown_top = false) (h2 : i.shutdown_after = false)
    (h3 : i.dequeue_r ≠ ETIMEDOUT)
    (h4 : ¬ ((s.resync i.node_down)._process_queue i.q).r < 0) :
    s.loop_body i =
      { pre := s, input := i, post := ((s.resync i.node_down)._process_queue i.q).st,
        fx := effect.dequeue s._monitor_interval ::
          ((s.resync i.node_down)._process_queue i.q).fx,
        exited := false } := by
  simp [loop_body, h1, h2, h3, h4]

/-- The six ways through the loop body. -/
theorem loop_body_cases (s : handler_monitor) (i : loop_input) :
    i.shutdown_top = true ∨
    (i.shutdown_top = false ∧ i.shutdown_after = true) ∨
    ping_fails i ∨ ping_succeeds i ∨
    (i.shutdown_top = false ∧ i.shutdown_after = false ∧ i.dequeue_r ≠ ETIMEDOUT ∧
      ((s.resync i.node_down)._process_queue i.q).r < 0) ∨
    (i.shutdown_top = false ∧ i.shutdown_after = false ∧ i.dequeue_r ≠ ETIMEDOUT ∧
      ¬ ((s.resync i.node_down)._process_queue i.q).r < 0) := by
  cases h1 : i.shutdown_top
  · cases h2 : i.shutdown_after
    · by_cases h3 : i.dequeue_r = ETIMEDOUT
      · by_cases h4 : _process_monitor i.is_available i.open_r i.run_client_r < 0
        · exact Or.inr (Or.inr (Or.inl ⟨h1, h2, h3, h4⟩))
        · exact Or.inr (Or.inr (Or.inr (Or.inl ⟨h1, h2, h3, h4⟩)))
      · by_cases h4 : ((s.resync i.node_down)._process_queue i.q).r < 0
        · exact Or.inr (Or.inr (Or.inr (Or.inr (Or.inl ⟨rfl, rfl, h3, h4⟩))))
        · exact Or.inr (Or.inr (Or.inr (Or.inr (Or.inr ⟨rfl, rfl, h3, h4⟩))))
    · exact Or.inr (Or.inl ⟨rfl, rfl⟩)
  · exact Or.inl rfl

/-- The `down_node` publications of one pass: at most one, and one only in a
pass that stays in the loop, read the peer as not down and ran with threshold 1. -/
theorem count_down_node_loop_body (s : handler_monitor) (i : loop_input) :
    count_down_node (s.loop_body i).fx ≤ 1 ∧
    (0 < count_down_node (s.loop_body i).fx →
      (s.loop_body i).exited = false ∧ i.node_down = false ∧ s._monitor_threshold = 1 ∧
      (s.loop_body i).post._monitor_threshold = 1 ∧ ¬ ping_succeeds i) := by
  have key : ∀ b : Bool, count_down_node (s.resync b)._down.fx ≤ 1 ∧
      (0 < count_down_node (s.resync b)._down.fx → b = false ∧ s._monitor_threshold = 1) := by
    intro b
    rw [count_down_node_down, resync_threshold, resync_down_state]
    cases b
    · simp only [Bool.false_eq_true, if_false, int_wrap_one]
      by_cases ht : (1 : Int) = s._monitor_threshold
      · simp [ht.symm]
      · simp [ht]
    · simp [int_wrap_succ_ne]
  rcases loop_body_cases s i with h | ⟨h1, h2⟩ | h | h | ⟨h1, h2, h3, h4⟩ | ⟨h1, h2, h3, h4⟩
  · rw [loop_body_shutdown_top s i h]; simp
  · rw [loop_body_shutdown_after s i h1 h2]; simp
  · rw [loop_body_ping_fails s i h]
    have hns : ¬ ping_succeeds i := fun hs => hs.2.2.2 h.2.2.2
    simpa [down_st, resync_threshold, hns] using key i.node_down
  · rw [loop_body_ping_succeeds s i h]
    simp [count_down_node_up]
  · rw [loop_body_queue_neg s i h1 h2 h3 h4]
    have hns : ¬ ping_succeeds i := fun hs => h3 hs.2.2.1
    simpa [down_st, resync_threshold, count_down_node_append,
      count_down_node_process_queue, hns] using key i.node_down
  · rw [loop_body_queue_ok s i h1 h2 h3 h4]
    simp [count_down_node_process_queue]

/-- A pass publishes `up_node` only on a successful ping. -/
theorem count_up_node_loop_body (s : handler_monitor) (i : loop_input)
    (h : 0 < count_up_node (s.loop_body i).fx) : ping_succeeds i := by
  rcases loop_body_cases s i with h0 | ⟨h1, h2⟩ | h0 | h0 | ⟨h1, h2, h3, h4⟩ | ⟨h1, h2, h3, h4⟩
  · rw [loop_body_shutdown_top s i h0] at h; simp at h
  · rw [loop_body_shutdown_after s i h1 h2] at h; simp at h
  · rw [loop_body_ping_fails s i h0] at h; simp [count_up_node_down] at h
  · exact h0
  · rw [loop_body_queue_neg s i h1 h2 h3 h4] at h
    simp [count_up_node_append, count_up_node_down, count_up_node_process_queue] at h
  · rw [loop_body_queue_ok s i h1 h2 h3 h4] at h
    simp [count_up_node_process_queue] at h

/-- Every pass of the loop is the loop body run on its own `pre` and `input`. -/
theorem mem_loop (s : handler_monitor) (inputs : List loop_input) (it : iteration)
    (h : it ∈ s.loop inputs) : ∃ s1 i, it = loop_body s1 i := by
  induction inputs generalizing s with
  | nil => simp [loop] at h
  | cons i rest ih =>
    simp only [loop] at h
    split_ifs at h with he
    · simp at h; exact ⟨s, i, h⟩
    · rcases List.mem_cons.mp h with h | h
      · exact ⟨s, i, h⟩
      · exact ih _ h

theorem loop_body_input (s : handler_monitor) (i : loop_input) :
    (s.loop_body i).input = i := by
  rcases loop_body_cases s i with h | ⟨h1, h2⟩ | h | h | ⟨h1, h2, h3, h4⟩ | ⟨h1, h2, h3, h4⟩
  · rw [loop_body_shutdown_top s i h]
  · rw [loop_body_shutdown_after s i h1 h2]
  · rw [loop_body_ping_fails s i h]
  · rw [loop_body_ping_succeeds s i h]
  · rw [loop_body_queue_neg s i h1 h2 h3 h4]
  · rw [loop_body_queue_ok s i h1 h2 h3 h4]

theorem loop_body_pre (s : handler_monitor) (i : loop_input) :
    (s.loop_body i).pre = s := by
  rcases loop_body_cases s i with h | ⟨h1, h2⟩ | h | h | ⟨h1, h2, h3, h4⟩ | ⟨h1, h2, h3, h4⟩
  · rw [loop_body_shutdown_top s i h]
  · rw [loop_body_shutdown_after s i h1 h2]
  · rw [loop_body_ping_fails s i h]
  · rw [loop_body_ping_succeeds s i h]
  · rw [loop_body_queue_neg s i h1 h2 h3 h4]
  · rw [loop_body_queue_ok s i h1 h2 h3 h4]

theorem all_fx_cons (it : iteration) (l : List iteration) :
    all_fx (it :: l) = it.fx ++ all_fx l := by
  simp [all_fx]

theorem directory_follows_take (l : List iteration) (pending : Bool) (b : Nat)
    (h : directory_follows pending l = true) :
    directory_follows pending (l.take b) = true := by
  induction l generalizing pending b with
  | nil => simp [directory_follows]
  | cons it rest ih =>
    cases b with
    | zero => simp [directory_follows]
    | succ b =>
      simp only [List.take_succ_cons, directory_follows, Bool.and_eq_true] at h ⊢
      exact ⟨h.1, ih _ _ h.2⟩

theorem directory_follows_drop (l : List iteration) (pending : Bool) (a : Nat)
    (h : directory_follows pending l = true) :
    ∃ p, directory_follows p (l.drop a) = true := by
  induction a generalizing l pending with
  | zero => exact ⟨pending, by simpa using h⟩
  | succ a ih =>
    cases l with
    | nil => exact ⟨pending, by simp [directory_follows]⟩
    | cons it rest =>
      simp only [directory_follows, Bool.and_eq_true] at h
      simpa using ih rest _ h.2

/-- In a stretch of passes without a successful ping, during which the
directory honours the handler's publications, `down_node` is published at
most once, and not at all when a publication is already outstanding. -/
theorem count_down_node_failure_run (l : List iteration) (pending : Bool)
    (hl : ∀ it ∈ l, ∃ s i, it = loop_body s i)
    (hd : directory_follows pending l = true)
    (hs : ∀ it ∈ l, ¬ ping_succeeds it.input) :
    count_down_node (all_fx l) ≤ if pending then 0 else 1 := by
  induction l generalizing pending with
  | nil => simp [all_fx]
  | cons it rest ih =>
    obtain ⟨s, i, rfl⟩ := hl _ (List.mem_cons_self _ _)
    have hrest : ∀ it ∈ rest, ∃ s i, it = loop_body s i :=
      fun it h => hl it (List.mem_cons_of_mem _ h)
    have hsrest : ∀ it ∈ rest, ¬ ping_succeeds it.input :=
      fun it h => hs it (List.mem_cons_of_mem _ h)
    have hi : ¬ ping_succeeds i := by
      have := hs _ (List.mem_cons_self _ _)
      rwa [loop_body_input] at this
    have hup : ¬ 0 < count_up_node (s.loop_body i).fx :=
      fun h => hi (count_up_node_loop_body s i h)
    obtain ⟨hle, hpos⟩ := count_down_node_loop_body s i
    simp only [directory_follows, Bool.and_eq_true, hup, if_false, loop_body_input] at hd
    obtain ⟨hhead, htail⟩ := hd
    rw [all_fx_cons, count_down_node_append]
    by_cases hc : 0 < count_down_node (s.loop_body i).fx
    · obtain ⟨hex, hnd, -⟩ := hpos hc
      simp only [hc, if_true] at htail
      have h0 := ih true hrest htail hsrest
      simp only [if_true] at h0
      cases pending
      · simp only [Bool.false_eq_true, if_false]; omega
      · simp [hex, hnd] at hhead
    · simp only [hc, if_false] at htail
      have h0 := ih pending hrest htail hsrest
      omega

theorem count_down_node_connect_ctor (name : String) (port open_r : Int) :
    count_down_node ((ctor name port).connect open_r).fx = 0 := by
  unfold connect
  split_ifs
  · rw [count_down_node_down]
    have h1 : int_wrap (0 + 1) ≠ 0 := by decide
    simpa [ctor] using h1
  · simp

/-! ## The claims -/

/-- Claim C1 (evaluation at the failing input).  With threshold 3 and the
directory reading the peer as not down, three passes in a row whose dequeue
times out and whose ping fails leave `down_state = 1`, not 3, and publish no
`down_node`: the resync of every pass puts the counter back to 0 before
`_down()` increments it.  The same holds in the run from a freshly
constructed handler that receives the options (3, 100) first. -/
theorem escalation_threshold_three_not_reached :
    (final_state { peer with _monitor_threshold := 3, _monitor_interval := 100 }
        (loop { peer with _monitor_threshold := 3, _monitor_interval := 100 }
          [ping_input false (-1), ping_input false (-1), ping_input false (-1)]))._down_state
      = 1 ∧
    count_down_node
        (all_fx (loop { peer with _monitor_threshold := 3, _monitor_interval := 100 }
          [ping_input false (-1), ping_input false (-1), ping_input false (-1)])) = 0 ∧
    (run "node1" 12121 0 escalation_inputs).2.map (fun it => it.post._monitor_threshold)
      = [3, 3, 3, 3] ∧
    (run "node1" 12121 0 escalation_inputs).2.map (fun it => it.post._down_state)
      = [0, 1, 1, 1] ∧
    count_down_node (all_fx (run "node1" 12121 0 escalation_inputs).2) = 0 := by
  decide

/-- Claim C2 (P2).  In every run of `handler_monitor::run` in which the
directory reads the peer as down from a `down_node` publication of this handler
until its next `up_node` publication, any stretch of consecutive passes
without a successful ping (together with the connect step) publishes
`down_node` at most once. -/
theorem down_node_at_most_once_per_failure_run (name : String) (port open_r : Int)
    (inputs : List loop_input) (a b : Nat)
    (hdir : directory_follows false (run name port open_r inputs).2 = true)
    (hfail : ∀ it ∈ segment a b (run name port open_r inputs).2, ¬ ping_succeeds it.input) :
    count_down_node ((run name port open_r inputs).1.fx ++
      all_fx (segment a b (run name port open_r inputs).2)) ≤ 1 := by
  rw [count_down_node_append]
  have hc : count_down_node (run name port open_r inputs).1.fx = 0 :=
    count_down_node_connect_ctor name port open_r
  obtain ⟨p, hp⟩ := directory_follows_drop _ _ a hdir
  have hseg : directory_follows p (segment a b (run name port open_r inputs).2) = true :=
    directory_follows_take _ _ b hp
  have hl : ∀ it ∈ segment a b (run name port open_r inputs).2, ∃ s i, it = loop_body s i := by
    intro it hit
    have h1 : it ∈ (run name port open_r inputs).2 :=
      List.mem_of_mem_drop (List.mem_of_mem_take hit)
    exact mem_loop _ _ _ h1
  have := count_down_node_failure_run _ p hl hseg hfail
  cases p <;> simp at this <;> omega

/-- Witness for claim C2: after the options (1, 100) arrive, three pings fail
in a row; the first publishes `down_node`, the directory then reads the peer
as down, and the stretch of the three failures publishes `down_node` once. -/
theorem down_node_at_most_once_per_failure_run_witness :
    directory_follows false (run "node1" 12121 (-1) failure_run_inputs).2 = true ∧
    (∀ it ∈ segment 1 3 (run "node1" 12121 (-1) failure_run_inputs).2,
      ¬ ping_succeeds it.input) ∧
    count_down_node (all_fx (segment 1 3 (run "node1" 12121 (-1) failure_run_inputs).2)) = 1 ∧
    count_down_node ((run "node1" 12121 (-1) failure_run_inputs).1.fx ++
      all_fx (segment 1 3 (run "node1" 12121 (-1) failure_run_inputs).2)) ≤ 1 :=
  ⟨by decide, by decide, by decide,
    down_node_at_most_once_per_failure_run "node1" 12121 (-1) failure_run_inputs 1 3
      (by decide) (by decide)⟩


/-- Claim C3 (counterexample).  A freshly constructed handler (threshold 0)
whose connection opens, and whose first pass times out on the dequeue, reads
the peer as not down and gets an answer to its ping, publishes `up_node`,
although it has published no `down_node` and the directory did not report the
peer as down. -/
theorem up_node_without_down_counterexample :
    (run "node1" 12121 0 [ping_input false 0]).1.fx = [] ∧
    (run "node1" 12121 0 [ping_input false 0]).2.map (fun it => it.fx) =
      [[effect.dequeue 0, effect.call_up, effect.up_node "node1" 12121]] ∧
    (run "node1" 12121 0 [ping_input false 0]).2.map (fun it => it.input.node_down) =
      [false] ∧
    (run "node1" 12121 0 [ping_input false 0]).2.map (fun it => it.pre._monitor_threshold) =
      [0] := by
  decide

/-- Claim C3 (amended).  In every run of `handler_monitor::run`, a pass
publishes `up_node` only if its dequeue timed out and its ping succeeded, and
moreover the directory reported the peer as down at the resync of that pass or
the threshold was `≤ 0` (as it is until the first `update_monitor_option`). -/
theorem up_node_only_if_down_or_threshold_nonpos (name : String) (port open_r : Int)
    (inputs : List loop_input) (it : iteration)
    (hit : it ∈ (run name port open_r inputs).2)
    (hup : 0 < count_up_node it.fx) :
    ping_succeeds it.input ∧
      (it.input.node_down = true ∨ it.pre._monitor_threshold ≤ 0) := by
  obtain ⟨s, i, rfl⟩ := mem_loop _ _ _ hit
  have hs : ping_succeeds i := count_up_node_loop_body s i hup
  rw [loop_body_input, loop_body_pre]
  refine ⟨hs, ?_⟩
  rw [loop_body_ping_succeeds s i hs] at hup
  simp only [count_up_node_dequeue] at hup
  by_contra hcon
  push_neg at hcon
  obtain ⟨hnd, ht⟩ := hcon
  have hnd' : i.node_down = false := by simpa using hnd
  have hlt : ¬ (s.resync false)._down_state ≥ (s.resync false)._monitor_threshold := by
    rw [resync_threshold, resync_down_state]; simp; omega
  rw [hnd'] at hup
  unfold _up at hup
  rw [if_neg hlt] at hup
  simp [count_up_node] at hup

/-- Witness for claim C3 (amended): with threshold 1, a failed ping is followed
by a pass that reads the peer as down and whose ping succeeds; that pass is
in the run, publishes `up_node` and read the peer as down. -/
theorem up_node_only_if_down_or_threshold_nonpos_witness :
    loop_body escalated (ping_input true 0) ∈ (run "node1" 12121 0 recovery_inputs).2 ∧
    0 < count_up_node (loop_body escalated (ping_input true 0)).fx ∧
    (ping_succeeds (loop_body escalated (ping_input true 0)).input ∧
      ((loop_body escalated (ping_input true 0)).input.node_down = true ∨
        (loop_body escalated (ping_input true 0)).pre._monitor_threshold ≤ 0)) :=
  ⟨by decide, by decide,
    up_node_only_if_down_or_threshold_nonpos "node1" 12121 0 recovery_inputs
      (loop_body escalated (ping_input true 0)) (by decide) (by decide)⟩

/-- Claim C4.  With threshold `t ≥ 1`, a pass whose dequeue times out and whose
ping succeeds performs the dequeue, enters `_up()`, publishes `up_node(peer)`
exactly once if the directory reported the peer as down at the resync and not
at all otherwise, publishes no `down_node`, stays in the loop and ends with
`down_state = 0` and the other members unchanged. -/
theorem recovery_pass (s : handler_monitor) (i : loop_input)
    (ht : 1 ≤ s._monitor_threshold) (hi : ping_succeeds i) :
    (s.loop_body i).fx = effect.dequeue s._monitor_interval :: effect.call_up ::
      (if i.node_down then [effect.up_node s._node_server_name s._node_server_port]
        else []) ∧
    count_up_node (s.loop_body i).fx = (if i.node_down then 1 else 0) ∧
    count_down_node (s.loop_body i).fx = 0 ∧
    (s.loop_body i).post = { s with _down_state := 0 } ∧
    (s.loop_body i).post._down_state = 0 ∧
    (s.loop_body i).exited = false := by
  rw [loop_body_ping_succeeds s i hi]
  have hfx : (s.resync i.node_down)._up.fx = effect.call_up ::
      (if i.node_down then [effect.up_node s._node_server_name s._node_server_port]
        else []) := by
    unfold _up
    cases hn : i.node_down
    · have hlt : ¬ (s.resync false)._down_state ≥ (s.resync false)._monitor_threshold := by
        rw [resync_threshold, resync_down_state]; simp; omega
      rw [if_neg hlt]; simp
    · have hge : (s.resync true)._down_state ≥ (s.resync true)._monitor_threshold := by
        rw [resync_threshold, resync_down_state]; simp
      rw [if_pos hge]; simp [resync]
  have hst : (s.resync i.node_down)._up.st = { s with _down_state := 0 } := by
    rw [up_st]; unfold resync; cases i.node_down <;> simp
  simp only [hfx, hst, count_up_node_dequeue, count_down_node_dequeue, and_true, true_and]
  cases i.node_down <;> simp [count_up_node, count_down_node]

/-- Witness for claim C4, threshold 3: a pass that reads the peer as down and
whose ping is answered publishes one `up_node`; a pass that reads the peer as
not down (one failure before it) and whose ping is answered publishes none. -/
theorem recovery_pass_witness :
    (1 ≤ down_at_three._monitor_threshold ∧ ping_succeeds (ping_input true 0) ∧
      count_up_node (loop_body down_at_three (ping_input true 0)).fx = 1 ∧
      count_down_node (loop_body down_at_three (ping_input true 0)).fx = 0 ∧
      (loop_body down_at_three (ping_input true 0)).post._down_state = 0) ∧
    (1 ≤ failed_once_at_three._monitor_threshold ∧ ping_succeeds (ping_input false 0) ∧
      count_up_node (loop_body failed_once_at_three (ping_input false 0)).fx = 0 ∧
      count_down_node (loop_body failed_once_at_three (ping_input false 0)).fx = 0 ∧
      (loop_body failed_once_at_three (ping_input false 0)).post._down_state = 0) :=
  have h1 := recovery_pass down_at_three (ping_input true 0) (by decide) (by decide)
  have h2 := recovery_pass failed_once_at_three (ping_input false 0) (by decide) (by decide)
  ⟨⟨by decide, by decide, h1.2.1, h1.2.2.1, h1.2.2.2.2.1⟩,
    ⟨by decide, by decide, h2.2.1, h2.2.2.1, h2.2.2.2.2.1⟩⟩

/-- Claim C5 (counterexample).  On a handler with `down_state = 2147483647`
(`INT_MAX`) the increment of `_down()` overflows: `down_state` is left at
`-2147483648`, not at `d + 1`; and with threshold `-2147483648` the call
publishes `down_node` although `d + 1` is not the threshold. -/
theorem down_overflows_at_int_max :
    at_int_max._down_state = 2147483647 ∧
    (_down at_int_max).st._down_state = -2147483648 ∧
    (_down at_int_max).st._down_state ≠ at_int_max._down_state + 1 ∧
    ({ at_int_max with _monitor_threshold := -2147483648 } : handler_monitor)._down_state + 1 ≠
      ({ at_int_max with _monitor_threshold := -2147483648 } : handler_monitor)._monitor_threshold ∧
    (_down { at_int_max with _monitor_threshold := -2147483648 }).fx =
      [effect.call_down, effect.down_node "node1" 12121] := by
  decide

/-- Claim C5 (amended).  `_down()` on a handler with `down_state = d`, an
`int` below `INT_MAX = 2147483647`, and threshold `t` leaves
`down_state = d + 1`, enters once, publishes `down_node(peer)` exactly once if
`d + 1 = t` and not at all otherwise, publishes no `up_node`, returns 0 and
leaves threshold, interval and peer unchanged. -/
theorem down_spec (s : handler_monitor)
    (hlo : -2147483648 ≤ s._down_state) (hhi : s._down_state < 2147483647) :
    s._down.st._down_state = s._down_state + 1 ∧
    s._down.fx = effect.call_down ::
      (if s._down_state + 1 = s._monitor_threshold
        then [effect.down_node s._node_server_name s._node_server_port] else []) ∧
    count_down_node s._down.fx = (if s._down_state + 1 = s._monitor_threshold then 1 else 0) ∧
    count_up_node s._down.fx = 0 ∧
    s._down.r = 0 ∧
    s._down.st._monitor_threshold = s._monitor_threshold ∧
    s._down.st._monitor_interval = s._monitor_interval ∧
    s._down.st._node_server_name = s._node_server_name ∧
    s._down.st._node_server_port = s._node_server_port := by
  have hw : int_wrap (s._down_state + 1) = s._down_state + 1 :=
    int_wrap_of_range _ (by omega) (by omega)
  have hr : s._down.r = 0 := by
    by_cases h : int_wrap (s._down_state + 1) = s._monitor_threshold <;> simp [_down, h]
  rw [count_down_node_down, count_up_node_down, down_fx, down_st, hw]
  simp [hr]

/-- Witness for claim C5 (amended): threshold 3; from `down_state = 2` the increment
reaches the threshold and `down_node` is published once. -/
theorem down_spec_witness :
    -2147483648 ≤ failed_twice_at_three._down_state ∧
    failed_twice_at_three._down_state < 2147483647 ∧
    (_down failed_twice_at_three).st._down_state = 3 ∧
    (_down failed_twice_at_three).fx = [effect.call_down, effect.down_node "node1" 12121] :=
  have h := down_spec failed_twice_at_three (by decide) (by decide)
  ⟨by decide, by decide, h.1, h.2.1⟩


/-- Claim C6.  `_up()` on a handler with `down_state = d` and threshold `t`
enters once, publishes `up_node(peer)` exactly once if `d ≥ t` and not at all
otherwise, publishes no `down_node`, returns 0, and leaves `down_state = 0`
with threshold, interval and peer unchanged; hence every pass whose ping
succeeds ends with `down_state = 0`. -/
theorem up_spec (s : handler_monitor) (i : loop_input) :
    s._up.fx = effect.call_up ::
      (if s._down_state ≥ s._monitor_threshold
        then [effect.up_node s._node_server_name s._node_server_port] else []) ∧
    count_up_node s._up.fx = (if s._down_state ≥ s._monitor_threshold then 1 else 0) ∧
    count_down_node s._up.fx = 0 ∧
    s._up.r = 0 ∧
    s._up.st = { s with _down_state := 0 } ∧
    s._up.st._down_state = 0 ∧
    s._up.st._monitor_threshold = s._monitor_threshold ∧
    s._up.st._monitor_interval = s._monitor_interval ∧
    (ping_succeeds i → (s.loop_body i).post._down_state = 0) := by
  have hlast : ping_succeeds i → (s.loop_body i).post._down_state = 0 := by
    intro hi
    rw [loop_body_ping_succeeds s i hi, up_st]
  refine ⟨?_, ?_, ?_, ?_, ?_, ?_, ?_, ?_, hlast⟩ <;>
    by_cases h : s._down_state ≥ s._monitor_threshold <;>
    simp [_up, h, count_up_node, count_down_node]

/-- Witness for claim C6: a handler with threshold 3 and `down_state = 4`
publishes `up_node` in `_up()`, and a pass from that state whose ping
succeeds ends with `down_state = 0`. -/
theorem up_spec_witness :
    ping_succeeds (ping_input true 0) ∧
    (_up down_at_three).fx = [effect.call_up, effect.up_node "node1" 12121] ∧
    (loop_body down_at_three (ping_input true 0)).post._down_state = 0 :=
  have h := up_spec down_at_three (ping_input true 0)
  ⟨by decide, h.1, h.2.2.2.2.2.2.2.2 (by decide)⟩

/-- Claim C7 (counterexample).  On a freshly constructed handler
(threshold 0, `down_state = 0`) the condition "`down_state ≥ threshold` and
`threshold > 0`" is false, yet `_process_queue` on a `node_sync` message
returns -1 without running the payload. -/
theorem node_sync_skipped_at_threshold_zero :
    ¬ (peer._down_state ≥ peer._monitor_threshold ∧ peer._monitor_threshold > 0) ∧
    peer._process_queue (node_sync 0) = { r := -1, st := peer, fx := [] } := by
  decide

/-- Claim C7 (amended).  `_process_queue` on a message tagged `"node_sync"`
returns -1 without running the payload if and only if
`down_state ≥ threshold` (whatever the threshold, 0 included); in every other
state it invokes the payload's `run(connection)` once and returns its result.
The members are unchanged either way. -/
theorem node_sync_skip_policy (s : handler_monitor) (q : thread_queue)
    (hq : q.ident = "node_sync") :
    (s._down_state ≥ s._monitor_threshold →
      s._process_queue q = { r := -1, st := s, fx := [] }) ∧
    (¬ s._down_state ≥ s._monitor_threshold →
      s._process_queue q = { r := q.run_r, st := s, fx := [effect.node_sync_run] }) ∧
    (((s._process_queue q).r = -1 ∧ effect.node_sync_run ∉ (s._process_queue q).fx) ↔
      s._down_state ≥ s._monitor_threshold) := by
  by_cases h : s._down_state ≥ s._monitor_threshold <;>
    simp [_process_queue, hq, h]

/-- Witness for claim C7 (amended): at threshold 3 a handler with
`down_state = 4` skips a `node_sync` message, and a handler with
`down_state = 1` runs it and returns its result. -/
theorem node_sync_skip_policy_witness :
    (node_sync 7).ident = "node_sync" ∧
    (down_at_three._down_state ≥ down_at_three._monitor_threshold ∧
      down_at_three._process_queue (node_sync 7) =
        { r := -1, st := down_at_three, fx := [] }) ∧
    (¬ failed_once_at_three._down_state ≥ failed_once_at_three._monitor_threshold ∧
      failed_once_at_three._process_queue (node_sync 7) =
        { r := (node_sync 7).run_r, st := failed_once_at_three,
          fx := [effect.node_sync_run] }) :=
  ⟨by decide,
    ⟨by decide, (node_sync_skip_policy down_at_three (node_sync 7) (by decide)).1 (by decide)⟩,
    ⟨by decide,
      (node_sync_skip_policy failed_once_at_three (node_sync 7) (by decide)).2.1 (by decide)⟩⟩


/-- Claim C8.  `_process_queue` on a message tagged `"update_monitor_option"`
with payload `(t, i)` returns 0, sets threshold to `t` and interval to `i`,
leaves `down_state` and the peer unchanged and has no effect on the
collaborators.  The pass of the loop that processes the message stays in the
loop, enters neither `_down()` nor `_up()`, publishes nothing, and ends with
the new options; the next pass, unless it sees the shutdown flag first, calls
`dequeue` with timeout `i`. -/
theorem update_monitor_option_spec (s : handler_monitor) (i next : loop_input)
    (rest : List loop_input)
    (hq : i.q.ident = "update_monitor_option") :
    s._process_queue i.q =
      { r := 0
        st := { s with _monitor_threshold := i.q.monitor_threshold
                       _monitor_interval := i.q.monitor_interval }
        fx := [] } ∧
    (s._process_queue i.q).st._down_state = s._down_state ∧
    (i.shutdown_top = false → i.shutdown_after = false → i.dequeue_r ≠ ETIMEDOUT →
      (s.loop_body i).fx = [effect.dequeue s._monitor_interval] ∧
      effect.call_down ∉ (s.loop_body i).fx ∧
      effect.call_up ∉ (s.loop_body i).fx ∧
      (s.loop_body i).exited = false ∧
      (s.loop_body i).post._monitor_threshold = i.q.monitor_threshold ∧
      (s.loop_body i).post._monitor_interval = i.q.monitor_interval ∧
      (next.shutdown_top = false →
        ∃ it2, (s.loop (i :: next :: rest))[1]? = some it2 ∧
          it2.fx.head? = some (effect.dequeue i.q.monitor_interval))) := by
  have hpq : ∀ s1 : handler_monitor, s1._process_queue i.q =
      { r := 0
        st := { s1 with _monitor_threshold := i.q.monitor_threshold
                        _monitor_interval := i.q.monitor_interval }
        fx := [] } := by
    intro s1; simp [_process_queue, hq]
  refine ⟨hpq s, by rw [hpq s], ?_⟩
  intro h1 h2 h3
  have hok : ¬ ((s.resync i.node_down)._process_queue i.q).r < 0 := by
    rw [hpq]; simp
  have hbody := loop_body_queue_ok s i h1 h2 h3 hok
  rw [hpq] at hbody
  rw [hbody]
  refine ⟨by simp, by simp, by simp, rfl, rfl, rfl, ?_⟩
  intro hn
  refine ⟨loop_body
    { s.resync i.node_down with _monitor_threshold := i.q.monitor_threshold
                                _monitor_interval := i.q.monitor_interval } next, ?_, ?_⟩
  · simp only [loop, hbody]
    simp only [Bool.false_eq_true, if_false]
    split_ifs <;> simp
  · by_cases hn2 : next.shutdown_after = true
    · rw [loop_body_shutdown_after _ _ hn hn2]; simp
    · simp [loop_body, hn, hn2]
      split_ifs <;> simp

/-- Witness for claim C8: a fresh handler receives the options (3, 100); the
pass only dequeues (with the old timeout 0), and the next pass dequeues with
timeout 100. -/
theorem update_monitor_option_spec_witness :
    (queue_input false (update_monitor_option 3 100)).q.ident = "update_monitor_option" ∧
    (loop_body peer (queue_input false (update_monitor_option 3 100))).fx =
      [effect.dequeue 0] ∧
    (∃ it2, (loop peer [queue_input false (update_monitor_option 3 100),
        ping_input false (-1)])[1]? = some it2 ∧
      it2.fx.head? = some (effect.dequeue 100)) :=
  have h := (update_monitor_option_spec peer (queue_input false (update_monitor_option 3 100))
    (ping_input false (-1)) [] (by decide)).2.2 (by decide) (by decide) (by decide)
  ⟨by decide, h.1, h.2.2.2.2.2.2 (by decide)⟩

/-- Claim C9.  In a pass of the loop in which the directory reports the peer as
down at the resync, no `down_node` is published, whatever the pass does: the
resync sets `down_state` to the threshold `t`, and the value after the
increment of `_down()`, the 32-bit successor of `t`, differs from `t`. -/
theorem external_down_publishes_no_down_node (s : handler_monitor) (i : loop_input)
    (h : i.node_down = true) :
    count_down_node (s.loop_body i).fx = 0 ∧
    (s.resync i.node_down)._down_state = s._monitor_threshold ∧
    (s.resync i.node_down)._down.st._down_state ≠ s._monitor_threshold ∧
    (ping_fails i → (s.loop_body i).post._down_state = int_wrap (s._monitor_threshold + 1)) := by
  obtain ⟨-, hpos⟩ := count_down_node_loop_body s i
  refine ⟨?_, ?_, ?_, ?_⟩
  · by_contra hne
    have h0 : 0 < count_down_node (s.loop_body i).fx := Nat.pos_of_ne_zero hne
    have := (hpos h0).2.1
    rw [h] at this
    exact Bool.noConfusion this
  · rw [resync_down_state, h]; rfl
  · rw [down_st, h]
    simpa [resync] using int_wrap_succ_ne s._monitor_threshold
  · intro hf
    rw [loop_body_ping_fails s i hf, down_st, h]
    simp [resync]

/-- Witness for claim C9: threshold 2, the directory reports the peer as down
and the next ping fails; the pass ends with `down_state = 3` and publishes no
`down_node`. -/
theorem external_down_publishes_no_down_node_witness :
    (ping_input true (-1)).node_down = true ∧
    ping_fails (ping_input true (-1)) ∧
    count_down_node
      (loop_body { peer with _monitor_threshold := 2, _monitor_interval := 100 }
        (ping_input true (-1))).fx = 0 ∧
    (loop_body { peer with _monitor_threshold := 2, _monitor_interval := 100 }
        (ping_input true (-1))).post._down_state = int_wrap (2 + 1) ∧
    int_wrap (2 + 1) = 3 :=
  have h := external_down_publishes_no_down_node
    { peer with _monitor_threshold := 2, _monitor_interval := 100 } (ping_input true (-1))
    (by decide)
  ⟨by decide, by decide, h.1, h.2.2.2 (by decide), by decide⟩

/-- Claim C10.  In every run of `handler_monitor::run`, a pass that starts or ends
with threshold 0 publishes no `down_node`, and neither does the connect step;
when the initial open fails, the connect step on the freshly constructed
handler (threshold 0, `down_state = 0`) enters `_down()`, leaves
`down_state = 1` and publishes nothing. -/
theorem threshold_zero_never_escalates (name : String) (port open_r : Int)
    (inputs : List loop_input) :
    (open_r < 0 →
      (run name port open_r inputs).1.fx = [effect.call_down] ∧
      (run name port open_r inputs).1.st._down_state = 1 ∧
      (run name port open_r inputs).1.st._monitor_threshold = 0) ∧
    count_down_node (run name port open_r inputs).1.fx = 0 ∧
    (∀ it ∈ (run name port open_r inputs).2,
      (it.pre._monitor_threshold = 0 ∨ it.post._monitor_threshold = 0) →
        count_down_node it.fx = 0) := by
  refine ⟨?_, count_down_node_connect_ctor name port open_r, ?_⟩
  · intro ho
    have h1 : int_wrap 1 = 1 := by decide
    simp only [run, connect, ho, if_true]
    rw [down_fx, down_st]
    simp [ctor, h1]
  · intro it hit hz
    obtain ⟨s, i, rfl⟩ := mem_loop _ _ _ hit
    rw [loop_body_pre] at hz
    obtain ⟨-, hpos⟩ := count_down_node_loop_body s i
    by_contra hne
    have h0 : 0 < count_down_node (s.loop_body i).fx := Nat.pos_of_ne_zero hne
    obtain ⟨-, -, hs, hp, -⟩ := hpos h0
    rcases hz with hz | hz
    · rw [hs] at hz; exact absurd hz (by decide)
    · rw [hp] at hz; exact absurd hz (by decide)

/-- Witness for claim C10: a fresh handler whose initial open fails and whose
next ping fails too, with no options received: the connect step enters
`_down()` and publishes nothing, and the pass (threshold 0) publishes no
`down_node`. -/
theorem threshold_zero_never_escalates_witness :
    (-1 : Int) < 0 ∧
    (run "node1" 12121 (-1) [ping_input false (-1)]).1.fx = [effect.call_down] ∧
    (run "node1" 12121 (-1) [ping_input false (-1)]).1.st._down_state = 1 ∧
    loop_body { peer with _down_state := 1 } (ping_input false (-1)) ∈
      (run "node1" 12121 (-1) [ping_input false (-1)]).2 ∧
    (loop_body { peer with _down_state := 1 } (ping_input false (-1))).pre._monitor_threshold
      = 0 ∧
    count_down_node (loop_body { peer with _down_state := 1 } (ping_input false (-1))).fx = 0 :=
  have h := threshold_zero_never_escalates "node1" 12121 (-1) [ping_input false (-1)]
  ⟨by decide, (h.1 (by decide)).1, (h.1 (by decide)).2.1, by decide, by decide,
    h.2.2 (loop_body { peer with _down_state := 1 } (ping_input false (-1))) (by decide)
      (Or.inl (by decide))⟩

/-- The invariant behind P1: the threshold is a non-negative `int` below
`INT_MAX` and `down_state` is non-negative. -/
theorem loop_body_post_nonneg (s : handler_monitor) (i : loop_input)
    (hs : 0 ≤ s._monitor_threshold ∧ s._monitor_threshold < 2147483647 ∧ 0 ≤ s._down_state)
    (hi : i.dequeue_r ≠ ETIMEDOUT → i.q.ident = "update_monitor_option" →
      0 ≤ i.q.monitor_threshold ∧ i.q.monitor_threshold < 2147483647) :
    0 ≤ (s.loop_body i).post._monitor_threshold ∧
    (s.loop_body i).post._monitor_threshold < 2147483647 ∧
    0 ≤ (s.loop_body i).post._down_state := by
  obtain ⟨h0, h1, h2⟩ := hs
  have hd : ∀ b : Bool, 0 ≤ ((s.resync b)._down.st)._monitor_threshold ∧
      ((s.resync b)._down.st)._monitor_threshold < 2147483647 ∧
      0 ≤ ((s.resync b)._down.st)._down_state := by
    intro b
    rw [down_st]
    simp only [resync_threshold, resync_down_state]
    refine ⟨h0, h1, ?_⟩
    cases b
    · simp only [Bool.false_eq_true, if_false]; decide
    · simp only [if_true]
      rw [int_wrap_of_range _ (by omega) (by omega)]; omega
  rcases loop_body_cases s i with h | ⟨h3, h4⟩ | h | h | ⟨h3, h4, h5, h6⟩ | ⟨h3, h4, h5, h6⟩
  · rw [loop_body_shutdown_top s i h]; exact ⟨h0, h1, h2⟩
  · rw [loop_body_shutdown_after s i h3 h4]; exact ⟨h0, h1, h2⟩
  · rw [loop_body_ping_fails s i h]; exact hd _
  · rw [loop_body_ping_succeeds s i h, up_st]
    simpa [resync_threshold] using And.intro h0 h1
  · rw [loop_body_queue_neg s i h3 h4 h5 h6]; exact hd _
  · rw [loop_body_queue_ok s i h3 h4 h5 h6]
    have hr : 0 ≤ (s.resync i.node_down)._down_state := by
      rw [resync_down_state]; split_ifs <;> omega
    by_cases hq : i.q.ident = "update_monitor_option"
    · obtain ⟨hq0, hq1⟩ := hi h5 hq
      simp only [_process_queue, hq, if_true]
      exact ⟨hq0, hq1, hr⟩
    · have hst : ((s.resync i.node_down)._process_queue i.q).st = s.resync i.node_down := by
        unfold _process_queue
        split_ifs <;> rfl
      rw [hst, resync_threshold]
      exact ⟨h0, h1, hr⟩

/-- The invariant of `loop_body_post_nonneg` holds after every pass of the loop. -/
theorem loop_post_nonneg (s : handler_monitor) (inputs : List loop_input)
    (hs : 0 ≤ s._monitor_threshold ∧ s._monitor_threshold < 2147483647 ∧ 0 ≤ s._down_state)
    (hi : ∀ i ∈ inputs, i.dequeue_r ≠ ETIMEDOUT → i.q.ident = "update_monitor_option" →
      0 ≤ i.q.monitor_threshold ∧ i.q.monitor_threshold < 2147483647) :
    ∀ it ∈ s.loop inputs, 0 ≤ it.post._down_state := by
  induction inputs generalizing s with
  | nil => intro it hit; simp [loop] at hit
  | cons i rest ih =>
    intro it hit
    have hpost := loop_body_post_nonneg s i hs (hi i (List.mem_cons_self _ _))
    simp only [loop] at hit
    split_ifs at hit with he
    · simp only [List.mem_singleton] at hit
      rw [hit]; exact hpost.2.2
    · rcases List.mem_cons.mp hit with h | h
      · rw [h]; exact hpost.2.2
      · exact ih _ hpost (fun j hj => hi j (List.mem_cons_of_mem _ hj)) it h

/-- Claim C11 (counterexample).  A fresh handler whose connection opens
receives the options (2147483647, 100), a non-negative threshold; in the next
pass the directory reports the peer as down and the ping fails.  The resync
sets `down_state` to 2147483647 and the increment of `_down()` overflows the
`int`: the pass ends with `down_state = -2147483648 < 0`. -/
theorem down_state_negative_at_int_max :
    (0 : Int) ≤ (update_monitor_option 2147483647 100).monitor_threshold ∧
    (run "node1" 12121 0
      [queue_input false (update_monitor_option 2147483647 100),
       ping_input true (-1)]).2.map (fun it => it.post._down_state)
      = [0, -2147483648] := by
  decide

/-- Claim C11 (amended).  Starting from the constructed state, for every
sequence of loop inputs in which every delivered `update_monitor_option`
message carries a threshold `t` with `0 ≤ t < 2147483647` (so that the
increment of `down_state` cannot overflow), `0 ≤ down_state` holds after the
connect step and after every pass of the loop. -/
theorem down_state_nonneg (name : String) (port open_r : Int) (inputs : List loop_input)
    (hi : ∀ i ∈ inputs, i.dequeue_r ≠ ETIMEDOUT → i.q.ident = "update_monitor_option" →
      0 ≤ i.q.monitor_threshold ∧ i.q.monitor_threshold < 2147483647) :
    0 ≤ (run name port open_r inputs).1.st._down_state ∧
    ∀ it ∈ (run name port open_r inputs).2, 0 ≤ it.post._down_state := by
  have hc : 0 ≤ ((ctor name port).connect open_r).st._monitor_threshold ∧
      ((ctor name port).connect open_r).st._monitor_threshold < 2147483647 ∧
      0 ≤ ((ctor name port).connect open_r).st._down_state := by
    unfold connect
    split_ifs
    · rw [down_st]
      simp only [ctor]
      decide
    · simp only [ctor]; decide
  exact ⟨hc.2.2, loop_post_nonneg _ inputs hc hi⟩

/-- Witness for claim C11 (amended): the options (3, 100) arrive after a
failed open, the directory reports the peer as down and the ping fails; the
values of `down_state` after the two passes are 0 and 4. -/
theorem down_state_nonneg_witness :
    (∀ i ∈ [queue_input false (update_monitor_option 3 100), ping_input true (-1)],
      i.dequeue_r ≠ ETIMEDOUT → i.q.ident = "update_monitor_option" →
        0 ≤ i.q.monitor_threshold ∧ i.q.monitor_threshold < 2147483647) ∧
    (run "node1" 12121 (-1)
      [queue_input false (update_monitor_option 3 100),
       ping_input true (-1)]).2.map (fun it => it.post._down_state) = [0, 4] ∧
    (0 ≤ (run "node1" 12121 (-1)
        [queue_input false (update_monitor_option 3 100),
         ping_input true (-1)]).1.st._down_state ∧
      ∀ it ∈ (run "node1" 12121 (-1)
        [queue_input false (update_monitor_option 3 100), ping_input true (-1)]).2,
        0 ≤ it.post._down_state) :=
  ⟨by decide, by decide,
    down_state_nonneg "node1" 12121 (-1)
      [queue_input false (update_monitor_option 3 100), ping_input true (-1)] (by decide)⟩

/-- Claim C12.  If the shutdown flag is seen at the top of a pass of the loop,
or right after the dequeue returns (timed out or not), the pass leaves the
loop and is the last one; it publishes neither `down_node` nor `up_node`,
does not process the message (no payload is run, `_down()` and `_up()` are
not entered), its only possible effect is the dequeue itself, and threshold,
interval and `down_state` are unchanged. -/
theorem shutdown_exits_without_publication (s : handler_monitor) (i : loop_input)
    (rest : List loop_input)
    (h : i.shutdown_top = true ∨ i.shutdown_after = true) :
    s.loop (i :: rest) = [s.loop_body i] ∧
    (s.loop_body i).exited = true ∧
    (s.loop_body i).post = s ∧
    (s.loop_body i).fx =
      (if i.shutdown_top then [] else [effect.dequeue s._monitor_interval]) ∧
    count_down_node (s.loop_body i).fx = 0 ∧
    count_up_node (s.loop_body i).fx = 0 ∧
    effect.node_sync_run ∉ (s.loop_body i).fx ∧
    effect.call_down ∉ (s.loop_body i).fx ∧
    effect.call_up ∉ (s.loop_body i).fx := by
  have hb : s.loop_body i =
      { pre := s, input := i, post := s,
        fx := (if i.shutdown_top then [] else [effect.dequeue s._monitor_interval]),
        exited := true } := by
    cases ht : i.shutdown_top
    · have ha : i.shutdown_after = true := by
        rcases h with h | h
        · rw [ht] at h; exact Bool.noConfusion h
        · exact h
      rw [loop_body_shutdown_after s i ht ha]; simp
    · rw [loop_body_shutdown_top s i ht]; simp
  refine ⟨?_, ?_⟩
  · simp only [loop, hb, if_true]
  · rw [hb]
    cases i.shutdown_top <;> simp

/-- Witness for claim C12: with interval 60000 the flag is set while the
handler waits in the dequeue; the pass dequeues, exits and leaves the members
as they were, although a message was delivered. -/
theorem shutdown_exits_without_publication_witness :
    (shutdown_mid_wait.shutdown_top = true ∨ shutdown_mid_wait.shutdown_after = true) ∧
    loop waiting [shutdown_mid_wait, ping_input false (-1)] =
      [loop_body waiting shutdown_mid_wait] ∧
    (loop_body waiting shutdown_mid_wait).post = waiting ∧
    (loop_body waiting shutdown_mid_wait).fx = [effect.dequeue 60000] :=
  have h := shutdown_exits_without_publication waiting shutdown_mid_wait
    [ping_input false (-1)] (Or.inr (by decide))
  ⟨Or.inr (by decide), h.1, h.2.2.1, by decide⟩

/-- A value in the range of `long` is not changed by the wrap. -/
theorem long_wrap_of_in_range (m : data_model) (x : Int) (h : in_long_range m x) :
    long_wrap m x = x := by
  cases m <;> simp only [long_wrap, in_long_range] at h ⊢ <;> omega

/-- Decrementing after a wrap is the wrap of the decremented value. -/
theorem long_wrap_sub_one (m : data_model) (x : Int) :
    long_wrap m (long_wrap m x - 1) = long_wrap m (x - 1) := by
  cases m <;> simp only [long_wrap] <;> omega

/-- What `time_util::sub` computes on normalized arguments, overflow of the
seconds included. -/
theorem sub_eq (m : data_model) (a b : timespec) (ha : a.normalized) (hb : b.normalized) :
    time_util.sub m a b =
      if a.tv_nsec < b.tv_nsec then
        { tv_sec := long_wrap m (a.tv_sec - b.tv_sec - 1)
          tv_nsec := a.tv_nsec - b.tv_nsec + 1000000000 }
      else
        { tv_sec := long_wrap m (a.tv_sec - b.tv_sec)
          tv_nsec := a.tv_nsec - b.tv_nsec } := by
  unfold timespec.normalized at ha hb
  have hn : long_wrap m (a.tv_nsec - b.tv_nsec) = a.tv_nsec - b.tv_nsec := by
    cases m <;> simp only [long_wrap] <;> omega
  have hp : long_wrap m (a.tv_nsec - b.tv_nsec + 1000000000) =
      a.tv_nsec - b.tv_nsec + 1000000000 := by
    cases m <;> simp only [long_wrap] <;> omega
  unfold time_util.sub
  simp only [hn, hp, long_wrap_sub_one]
  by_cases h : a.tv_nsec < b.tv_nsec
  · have h1 : a.tv_nsec - b.tv_nsec < 0 := by omega
    simp only [h, h1, if_true]
  · have h1 : ¬ a.tv_nsec - b.tv_nsec < 0 := by omega
    simp only [h, h1, if_false]

/-- On normalized arguments whose exact difference has seconds in the range of
`time_t`, `time_util::sub` returns a normalized timespec that stands for the
difference of the two times. -/
theorem sub_normalized_total (m : data_model) (a b : timespec)
    (ha : a.normalized) (hb : b.normalized) (hrep : in_long_range m (exact_sub_sec a b)) :
    (time_util.sub m a b).normalized ∧
    (time_util.sub m a b).total_nsec = a.total_nsec - b.total_nsec := by
  rw [sub_eq m a b ha hb]
  unfold exact_sub_sec at hrep
  unfold timespec.normalized at ha hb ⊢
  unfold timespec.total_nsec
  by_cases h : a.tv_nsec < b.tv_nsec
  · simp only [h, if_true] at hrep ⊢
    rw [long_wrap_of_in_range m _ hrep]
    exact ⟨⟨by omega, by omega⟩, by ring⟩
  · simp only [h, if_false, sub_zero] at hrep ⊢
    rw [long_wrap_of_in_range m _ hrep]
    exact ⟨⟨by omega, by omega⟩, by ring⟩

/-- Times with non-negative seconds in the range of `time_t` (as the clock
returns them) have an exact difference whose seconds are in that range. -/
theorem exact_sub_sec_in_range (m : data_model) (a b : timespec)
    (ha : in_long_range m a.tv_sec) (hb : in_long_range m b.tv_sec)
    (ha0 : 0 ≤ a.tv_sec) (hb0 : 0 ≤ b.tv_sec) :
    in_long_range m (exact_sub_sec a b) := by
  unfold exact_sub_sec
  cases m <;> simp only [in_long_range] at ha hb ⊢ <;> split_ifs <;> omega

/-- Claim C13 (counterexample).  On `LP64` the normalized timespecs
`(9223372036854775807, 0)` and `(-1, 0)` are values of the type, but the
subtraction of their seconds overflows `time_t`: `time_util::sub` returns
`(-9223372036854775808, 0)`, which does not stand for the difference of the
two times. -/
theorem sub_overflows_counterexample :
    time_max_lp64.normalized ∧ time_minus_one.normalized ∧
    time_max_lp64.in_range data_model.LP64 ∧ time_minus_one.in_range data_model.LP64 ∧
    time_util.sub data_model.LP64 time_max_lp64 time_minus_one =
      { tv_sec := -9223372036854775808, tv_nsec := 0 } ∧
    (time_util.sub data_model.LP64 time_max_lp64 time_minus_one).total_nsec ≠
      time_max_lp64.total_nsec - time_minus_one.total_nsec := by
  decide

/-- Claim C13 (amended).  For timespecs `a` and `b` with
`0 ≤ tv_nsec < 1000000000` such that the seconds of their exact difference
(`a.tv_sec - b.tv_sec`, less one when `a.tv_nsec < b.tv_nsec`) are in the
range of `time_t`, the result `r` of `time_util::sub(a, b)` has
`0 ≤ r.tv_nsec < 1000000000` and stands for the difference of the two times in
nanoseconds; its second field is `a.tv_sec - b.tv_sec - 1` (one second
borrowed) exactly when `a.tv_nsec < b.tv_nsec`, and `a.tv_sec - b.tv_sec`
otherwise. -/
theorem sub_spec (m : data_model) (a b : timespec) (ha : a.normalized) (hb : b.normalized)
    (hrep : in_long_range m (exact_sub_sec a b)) :
    (time_util.sub m a b).normalized ∧
    (time_util.sub m a b).total_nsec = a.total_nsec - b.total_nsec ∧
    ((time_util.sub m a b).tv_sec = a.tv_sec - b.tv_sec - 1 ↔ a.tv_nsec < b.tv_nsec) ∧
    ((time_util.sub m a b).tv_sec = a.tv_sec - b.tv_sec ↔ ¬ a.tv_nsec < b.tv_nsec) ∧
    (a.tv_nsec < b.tv_nsec →
      (time_util.sub m a b).tv_nsec = a.tv_nsec - b.tv_nsec + 1000000000) ∧
    (¬ a.tv_nsec < b.tv_nsec → (time_util.sub m a b).tv_nsec = a.tv_nsec - b.tv_nsec) := by
  rw [sub_eq m a b ha hb]
  unfold exact_sub_sec at hrep
  unfold timespec.normalized at ha hb ⊢
  unfold timespec.total_nsec
  by_cases h : a.tv_nsec < b.tv_nsec
  · rw [if_pos h] at hrep ⊢
    rw [long_wrap_of_in_range m _ hrep]
    dsimp only
    refine ⟨⟨by omega, by omega⟩, by ring, ⟨fun _ => h, fun _ => rfl⟩,
      ⟨fun h1 => by omega, fun h1 => absurd h h1⟩, fun _ => rfl, fun h1 => absurd h h1⟩
  · rw [if_neg h] at hrep ⊢
    rw [sub_zero] at hrep
    rw [long_wrap_of_in_range m _ hrep]
    dsimp only
    refine ⟨⟨by omega, by omega⟩, by ring, ⟨fun h1 => by omega, fun h1 => absurd h1 h⟩,
      ⟨fun _ => h, fun _ => rfl⟩, fun h1 => absurd h1 h, fun _ => rfl⟩

/-- Witness for claim C13 (amended): 5.2 s minus 3.7 s is 1.5 s, with a
borrow. -/
theorem sub_spec_witness :
    time_5_2.normalized ∧ time_3_7.normalized ∧
    in_long_range data_model.LP64 (exact_sub_sec time_5_2 time_3_7) ∧
    time_util.sub data_model.LP64 time_5_2 time_3_7 = { tv_sec := 1, tv_nsec := 500000000 } ∧
    (time_util.sub data_model.LP64 time_5_2 time_3_7).total_nsec =
      time_5_2.total_nsec - time_3_7.total_nsec :=
  ⟨by decide, by decide, by decide, by decide,
    (sub_spec data_model.LP64 time_5_2 time_3_7 (by decide) (by decide) (by decide)).2.1⟩

/-- The value of `time_util::msec_to_timespec` on both data models. -/
theorem msec_to_timespec_eq (m : data_model) (msec : Nat) (h : msec < 4294967296) :
    time_util.msec_to_timespec m msec =
      { tv_sec := (msec : Int) / 1000, tv_nsec := ((msec : Int) % 1000) * 1000000 } := by
  have hq0 : 0 ≤ (msec : Int) / 1000 := by omega
  have hq1 : (msec : Int) / 1000 ≤ 4294967 := by omega
  have hr : (msec : Int) - (msec : Int) / 1000 * 1000 = (msec : Int) % 1000 := by omega
  have hr0 : 0 ≤ (msec : Int) % 1000 := by omega
  have hr1 : (msec : Int) % 1000 ≤ 999 := by omega
  have h1 : uint32_wrap ((msec : Int) / 1000) = (msec : Int) / 1000 := by
    unfold uint32_wrap; omega
  have h2 : long_wrap m ((msec : Int) / 1000) = (msec : Int) / 1000 := by
    cases m <;> simp only [long_wrap] <;> omega
  have h3 : uint32_long_wrap m
      ((msec : Int) - long_wrap m ((msec : Int) / 1000 * 1000)) = (msec : Int) % 1000 := by
    rw [← hr]
    generalize (msec : Int) / 1000 * 1000 = p at *
    cases m <;> simp only [long_wrap, uint32_long_wrap] <;> omega
  have h4 : uint32_long_wrap m ((msec : Int) % 1000 * 1000) = (msec : Int) % 1000 * 1000 := by
    cases m <;> simp only [long_wrap, uint32_long_wrap] <;> omega
  have h5 : uint32_long_wrap m ((msec : Int) % 1000 * 1000 * 1000) =
      (msec : Int) % 1000 * 1000000 := by
    cases m <;> simp only [long_wrap, uint32_long_wrap] <;> omega
  have h6 : long_wrap m ((msec : Int) % 1000 * 1000000) = (msec : Int) % 1000 * 1000000 := by
    cases m <;> simp only [long_wrap] <;> omega
  simp only [time_util.msec_to_timespec, h1, h2, h3, h4, h5, h6]

/-- Claim C14.  For every `msec` below `2^32` and on both data models,
`time_util::msec_to_timespec(msec)` has `tv_sec = msec / 1000` and
`tv_nsec = (msec mod 1000) * 1000000`, so `0 ≤ tv_nsec < 1000000000` and
`tv_sec * 1000 + tv_nsec / 1000000 = msec`: the wrap-around of the
intermediate product `tv_sec * 1000` on 32-bit `long` does not change the
result. -/
theorem msec_to_timespec_spec (m : data_model) (msec : Nat) (h : msec < 4294967296) :
    (time_util.msec_to_timespec m msec).tv_sec = ((msec / 1000 : Nat) : Int) ∧
    (time_util.msec_to_timespec m msec).tv_nsec = ((msec % 1000 * 1000000 : Nat) : Int) ∧
    0 ≤ (time_util.msec_to_timespec m msec).tv_nsec ∧
    (time_util.msec_to_timespec m msec).tv_nsec < 1000000000 ∧
    (time_util.msec_to_timespec m msec).tv_sec * 1000 +
      (time_util.msec_to_timespec m msec).tv_nsec / 1000000 = (msec : Int) := by
  rw [msec_to_timespec_eq m msec h]
  dsimp only
  refine ⟨by omega, by omega, by omega, by omega, by omega⟩

/-- Witness for claim C14: 3000000999 ms is 3000000 s and 999000000 ns on both
data models; on `ILP32` the product `3000000 * 1000` exceeds the largest
`long`. -/
theorem msec_to_timespec_spec_witness :
    (3000000999 : Nat) < 4294967296 ∧
    time_util.msec_to_timespec data_model.ILP32 3000000999 =
      { tv_sec := 3000000, tv_nsec := 999000000 } ∧
    time_util.msec_to_timespec data_model.LP64 3000000999 =
      { tv_sec := 3000000, tv_nsec := 999000000 } ∧
    (time_util.msec_to_timespec data_model.ILP32 3000000999).tv_sec * 1000 +
      (time_util.msec_to_timespec data_model.ILP32 3000000999).tv_nsec / 1000000 =
      ((3000000999 : Nat) : Int) :=
  ⟨by decide, by decide, by decide,
    (msec_to_timespec_spec data_model.ILP32 3000000999 (by decide)).2.2.2.2⟩
/-- The function `time_util::is_bigger` is the lexicographic comparison. -/
theorem is_bigger_iff (a b : timespec) :
    time_util.is_bigger a b = true ↔
      a.tv_sec > b.tv_sec ∨ (a.tv_sec = b.tv_sec ∧ a.tv_nsec > b.tv_nsec) := by
  unfold time_util.is_bigger
  by_cases h : a.tv_sec = b.tv_sec
  · simp only [h, if_true, decide_eq_true_eq]
    constructor
    · intro h1; exact Or.inr ⟨trivial, h1⟩
    · rintro (h1 | ⟨-, h1⟩)
      · omega
      · exact h1
  · simp only [h, if_false, decide_eq_true_eq]
    constructor
    · intro h1; exact Or.inl h1
    · rintro (h1 | ⟨h1, -⟩)
      · exact h1
      · exact h1.elim

/-- Claim C15 (counterexample).  On `LP64`, for the normalized timespecs
`a = (9223372036854775807, 0)` and `b = (-1, 0)`, `is_bigger(a, b)` holds but
`sub(a, b)`, whose seconds overflow, is not bigger than the zero timespec. -/
theorem is_bigger_sub_counterexample :
    time_max_lp64.normalized ∧ time_minus_one.normalized ∧
    time_max_lp64.in_range data_model.LP64 ∧ time_minus_one.in_range data_model.LP64 ∧
    time_util.is_bigger time_max_lp64 time_minus_one = true ∧
    time_max_lp64.total_nsec > time_minus_one.total_nsec ∧
    time_util.is_bigger (time_util.sub data_model.LP64 time_max_lp64 time_minus_one)
      { tv_sec := 0, tv_nsec := 0 } = false := by
  decide

/-- Claim C15 (amended).  The function `time_util::is_bigger` is the strict
lexicographic order on `(tv_sec, tv_nsec)`: it is irreflexive and transitive,
exactly one of `is_bigger(a, b)`, `is_bigger(b, a)` and `a = b` holds, and on
timespecs with `0 ≤ tv_nsec < 1000000000` it holds iff `a` stands for more
nanoseconds than `b`; when moreover the seconds of the exact difference of `a`
and `b` are in the range of `time_t`, it holds iff `sub(a, b)` is bigger than
the zero timespec. -/
theorem is_bigger_spec (m : data_model) (a b c : timespec) :
    (time_util.is_bigger a b = true ↔
      a.tv_sec > b.tv_sec ∨ (a.tv_sec = b.tv_sec ∧ a.tv_nsec > b.tv_nsec)) ∧
    time_util.is_bigger a a = false ∧
    (time_util.is_bigger a b = true → time_util.is_bigger b c = true →
      time_util.is_bigger a c = true) ∧
    ((time_util.is_bigger a b = true ∧ time_util.is_bigger b a = false ∧ a ≠ b) ∨
      (time_util.is_bigger a b = false ∧ time_util.is_bigger b a = true ∧ a ≠ b) ∨
      (time_util.is_bigger a b = false ∧ time_util.is_bigger b a = false ∧ a = b)) ∧
    (a.normalized → b.normalized →
      (time_util.is_bigger a b = true ↔ a.total_nsec > b.total_nsec) ∧
      (in_long_range m (exact_sub_sec a b) →
        (time_util.is_bigger a b = true ↔
          time_util.is_bigger (time_util.sub m a b) { tv_sec := 0, tv_nsec := 0 } = true))) := by
  have hne : ∀ x y : timespec, x ≠ y ↔ (x.tv_sec ≠ y.tv_sec ∨ x.tv_nsec ≠ y.tv_nsec) := by
    intro x y
    cases x; cases y
    simp only [ne_eq, timespec.mk.injEq]
    tauto
  have hf : ∀ x y : timespec, time_util.is_bigger x y = false ↔
      ¬ (x.tv_sec > y.tv_sec ∨ (x.tv_sec = y.tv_sec ∧ x.tv_nsec > y.tv_nsec)) := by
    intro x y
    rw [← is_bigger_iff, Bool.not_eq_true]
  refine ⟨is_bigger_iff a b, ?_, ?_, ?_, ?_⟩
  · rw [hf]; omega
  · rw [is_bigger_iff, is_bigger_iff, is_bigger_iff]; omega
  · have hab : a = b ↔ ¬ a ≠ b := by simp
    rw [hab, hne, hf, hf, is_bigger_iff, is_bigger_iff]
    omega
  · intro ha hb
    refine ⟨?_, ?_⟩
    · unfold timespec.normalized at ha hb
      unfold timespec.total_nsec
      rw [is_bigger_iff]
      omega
    · intro hrep
      obtain ⟨hn, ht⟩ := sub_normalized_total m a b ha hb hrep
      unfold timespec.normalized at ha hb hn
      unfold timespec.total_nsec at ht
      rw [is_bigger_iff, is_bigger_iff]
      dsimp only
      generalize time_util.sub m a b = r at hn ht
      omega

/-- Witness for claim C15 (amended): 5.2 s is bigger than 3.7 s, it stands
for more nanoseconds, and the difference 1.5 s is bigger than zero. -/
theorem is_bigger_spec_witness :
    time_5_2.normalized ∧ time_3_7.normalized ∧
    in_long_range data_model.LP64 (exact_sub_sec time_5_2 time_3_7) ∧
    time_util.is_bigger time_5_2 time_3_7 = true ∧
    (time_util.is_bigger time_5_2 time_3_7 = true ↔
      time_util.is_bigger (time_util.sub data_model.LP64 time_5_2 time_3_7)
        { tv_sec := 0, tv_nsec := 0 } = true) :=
  ⟨by decide, by decide, by decide, by decide,
    ((is_bigger_spec data_model.LP64 time_5_2 time_3_7 { tv_sec := 0, tv_nsec := 0 }).2.2.2.2
      (by decide) (by decide)).2 (by decide)⟩

/-- Claim C16 (evaluation at the failing input).  With threshold 3 and the
directory reading the peer as not down, two passes in a row whose dequeue
times out and whose ping fails leave `down_state = 1`, not 2: the resync of
the second pass puts the counter back to 0 before `_down()` increments it.
No `down_node` is published.  The same holds in the run from a freshly
constructed handler that receives the options (3, 100) first. -/
theorem consecutive_failures_not_counted :
    (loop { peer with _monitor_threshold := 3, _monitor_interval := 100 }
        [ping_input false (-1), ping_input false (-1)]).map
      (fun it => (it.pre._down_state, it.post._down_state)) = [(0, 1), (1, 1)] ∧
    (final_state { peer with _monitor_threshold := 3, _monitor_interval := 100 }
        (loop { peer with _monitor_threshold := 3, _monitor_interval := 100 }
          [ping_input false (-1), ping_input false (-1)]))._down_state = 1 ∧
    count_down_node
        (all_fx (loop { peer with _monitor_threshold := 3, _monitor_interval := 100 }
          [ping_input false (-1), ping_input false (-1)])) = 0 ∧
    (run "node1" 12121 0
        [queue_input false (update_monitor_option 3 100),
         ping_input false (-1), ping_input false (-1)]).2.map
      (fun it => it.post._down_state) = [0, 1, 1] := by
  decide

/-- Claim C17.  In a pass of the loop that passes both shutdown checks, what
follows the resync runs on the handler whose `down_state` is the threshold if
the directory reports the peer as down and 0 otherwise, whatever `down_state`
was before, and whose threshold, interval and peer are those from before the
pass: the ping result is handed to `_down()` or `_up()` of that handler, and a
delivered message is processed by that handler. -/
theorem resync_spec (s : handler_monitor) (i : loop_input)
    (h1 : i.shutdown_top = false) (h2 : i.shutdown_after = false) :
    (s.resync i.node_down) =
      { s with _down_state := if i.node_down then s._monitor_threshold else 0 } ∧
    (s.resync i.node_down)._monitor_threshold = s._monitor_threshold ∧
    (s.resync i.node_down)._monitor_interval = s._monitor_interval ∧
    (∀ d : Int, ({ s with _down_state := d }).resync i.node_down = s.resync i.node_down) ∧
    (∀ d : Int, (loop_body { s with _down_state := d } i).post = (s.loop_body i).post ∧
      (loop_body { s with _down_state := d } i).fx = (s.loop_body i).fx) ∧
    (ping_fails i →
      (s.loop_body i).post =
        (_down { s with _down_state := if i.node_down then s._monitor_threshold else 0 }).st ∧
      (s.loop_body i).fx = effect.dequeue s._monitor_interval ::
        (_down { s with _down_state := if i.node_down then s._monitor_threshold else 0 }).fx) ∧
    (ping_succeeds i →
      (s.loop_body i).post =
        (_up { s with _down_state := if i.node_down then s._monitor_threshold else 0 }).st ∧
      (s.loop_body i).fx = effect.dequeue s._monitor_interval ::
        (_up { s with _down_state := if i.node_down then s._monitor_threshold else 0 }).fx) ∧
    (i.dequeue_r ≠ ETIMEDOUT →
      ¬ (_process_queue
          { s with _down_state := if i.node_down then s._monitor_threshold else 0 } i.q).r < 0 →
      (s.loop_body i).post =
        (_process_queue
          { s with _down_state := if i.node_down then s._monitor_threshold else 0 } i.q).st ∧
      (s.loop_body i).fx = effect.dequeue s._monitor_interval ::
        (_process_queue
          { s with _down_state := if i.node_down then s._monitor_threshold else 0 } i.q).fx) ∧
    (i.dequeue_r ≠ ETIMEDOUT →
      (_process_queue
          { s with _down_state := if i.node_down then s._monitor_threshold else 0 } i.q).r < 0 →
      (s.loop_body i).post =
        (_down { s with _down_state := if i.node_down then s._monitor_threshold else 0 }).st ∧
      (s.loop_body i).fx = effect.dequeue s._monitor_interval ::
        ((_process_queue
          { s with _down_state := if i.node_down then s._monitor_threshold else 0 } i.q).fx ++
        (_down { s with _down_state := if i.node_down then s._monitor_threshold else 0 }).fx)) := by
  have hr : s.resync i.node_down =
      { s with _down_state := if i.node_down then s._monitor_threshold else 0 } := by
    unfold resync; cases i.node_down <;> simp
  have hd : ∀ d : Int,
      ({ s with _down_state := d }).resync i.node_down = s.resync i.node_down := by
    intro d; unfold resync; cases i.node_down <;> simp
  have hbody : ∀ d : Int, (loop_body { s with _down_state := d } i).post = (s.loop_body i).post ∧
      (loop_body { s with _down_state := d } i).fx = (s.loop_body i).fx := by
    intro d
    simp only [loop_body, h1, h2, hd d, Bool.false_eq_true, if_false]
    split_ifs <;> exact ⟨rfl, rfl⟩
  refine ⟨hr, resync_threshold _ _, by rw [hr], hd, hbody, ?_, ?_, ?_, ?_⟩
  · intro hf
    rw [loop_body_ping_fails s i hf, hr]
    exact ⟨rfl, rfl⟩
  · intro hs
    rw [loop_body_ping_succeeds s i hs, hr]
    exact ⟨rfl, rfl⟩
  · intro h3 h4
    rw [← hr] at h4 ⊢
    rw [loop_body_queue_ok s i h1 h2 h3 h4]
    exact ⟨rfl, rfl⟩
  · intro h3 h4
    rw [← hr] at h4 ⊢
    rw [loop_body_queue_neg s i h1 h2 h3 h4]
    exact ⟨rfl, rfl⟩

/-- Witness for claim C17: threshold 3, `down_state = 1` from an earlier
failure; the directory reports the peer as down and the ping fails, so the
pass ends with `down_state = 4`; had it reported the peer as not down, the
pass would end with `down_state = 1`. -/
theorem resync_spec_witness :
    (ping_input true (-1)).shutdown_top = false ∧
    (ping_input true (-1)).shutdown_after = false ∧
    ping_fails (ping_input true (-1)) ∧
    (loop_body failed_once_at_three (ping_input true (-1))).post =
      (_down { failed_once_at_three with _down_state :=
        if (ping_input true (-1)).node_down then failed_once_at_three._monitor_threshold
        else 0 }).st ∧
    (loop_body failed_once_at_three (ping_input true (-1))).post._down_state = 4 ∧
    (loop_body failed_once_at_three (ping_input false (-1))).post._down_state = 1 :=
  have h := resync_spec failed_once_at_three (ping_input true (-1)) (by decide) (by decide)
  ⟨by decide, by decide, by decide, (h.2.2.2.2.2.1 (by decide)).1, by decide, by decide⟩

/-- Claim C18.  On a message whose tag is neither `"update_monitor_option"`
nor `"node_sync"`, `_process_queue` returns -1, leaves every member unchanged
and has no effect (the payload is not run); the pass of the loop that
processes such a message stays in the loop, enters `_down()` exactly once, on
the resynced handler, and does not enter `_up()`. -/
theorem unknown_tag_spec (s : handler_monitor) (i : loop_input)
    (hu : i.q.ident ≠ "update_monitor_option") (hn : i.q.ident ≠ "node_sync") :
    s._process_queue i.q = { r := -1, st := s, fx := [] } ∧
    (i.shutdown_top = false → i.shutdown_after = false → i.dequeue_r ≠ ETIMEDOUT →
      (s.loop_body i).exited = false ∧
      (s.loop_body i).post = (s.resync i.node_down)._down.st ∧
      (s.loop_body i).fx =
        effect.dequeue s._monitor_interval :: (s.resync i.node_down)._down.fx ∧
      (s.loop_body i).fx.count effect.call_down = 1 ∧
      effect.call_up ∉ (s.loop_body i).fx ∧
      effect.node_sync_run ∉ (s.loop_body i).fx ∧
      count_up_node (s.loop_body i).fx = 0) := by
  have hpq : ∀ s1 : handler_monitor, s1._process_queue i.q = { r := -1, st := s1, fx := [] } := by
    intro s1; simp [_process_queue, hu, hn]
  refine ⟨hpq s, ?_⟩
  intro h1 h2 h3
  have hneg : ((s.resync i.node_down)._process_queue i.q).r < 0 := by
    rw [hpq]; simp
  rw [loop_body_queue_neg s i h1 h2 h3 hneg, hpq]
  dsimp only
  rw [down_fx]
  refine ⟨rfl, rfl, by simp, ?_, ?_, ?_, ?_⟩
  · split_ifs <;> simp [List.count_cons]
  · split_ifs <;> simp
  · split_ifs <;> simp
  · split_ifs <;> simp [count_up_node]

/-- Witness for claim C18: at threshold 1 a message tagged `"node_shift"` is
delivered while the directory reads the peer as not down; the pass counts it
as a failure and even publishes `down_node`. -/
theorem unknown_tag_spec_witness :
    (queue_input false unknown_queue).q.ident ≠ "update_monitor_option" ∧
    (queue_input false unknown_queue).q.ident ≠ "node_sync" ∧
    escalated._process_queue (queue_input false unknown_queue).q =
      { r := -1, st := escalated, fx := [] } ∧
    (loop_body escalated (queue_input false unknown_queue)).fx =
      [effect.dequeue 100, effect.call_down, effect.down_node "node1" 12121] ∧
    (loop_body escalated (queue_input false unknown_queue)).fx.count effect.call_down = 1 :=
  have h := unknown_tag_spec escalated (queue_input false unknown_queue)
    (by decide) (by decide)
  ⟨by decide, by decide, h.1, by decide,
    (h.2 (by decide) (by decide) (by decide)).2.2.2.1⟩

/-- Claim C19.  In every run of `handler_monitor::run` from the constructed
state, the connect step publishes no `down_node`, and a pass of the loop
publishes `down_node` only if it stays in the loop, the directory reported the
peer as not down at its resync, and the threshold is exactly 1 (before the
pass and after it, hence when `_down()` is called); such a pass publishes it
once.  Hence a run in which no pass starts with threshold 1 publishes no
`down_node` at all, however many pings fail. -/
theorem down_node_only_at_threshold_one (name : String) (port open_r : Int)
    (inputs : List loop_input) :
    count_down_node (run name port open_r inputs).1.fx = 0 ∧
    (∀ it ∈ (run name port open_r inputs).2, 0 < count_down_node it.fx →
      it.pre._monitor_threshold = 1 ∧ it.post._monitor_threshold = 1 ∧
      it.input.node_down = false ∧ it.exited = false ∧
      effect.call_down ∈ it.fx ∧ count_down_node it.fx = 1) ∧
    ((∀ it ∈ (run name port open_r inputs).2, it.pre._monitor_threshold ≠ 1) →
      count_down_node
        ((run name port open_r inputs).1.fx ++ all_fx (run name port open_r inputs).2) = 0) := by
  have hc := count_down_node_connect_ctor name port open_r
  have hpass : ∀ it ∈ (run name port open_r inputs).2, 0 < count_down_node it.fx →
      it.pre._monitor_threshold = 1 ∧ it.post._monitor_threshold = 1 ∧
      it.input.node_down = false ∧ it.exited = false ∧
      effect.call_down ∈ it.fx ∧ count_down_node it.fx = 1 := by
    intro it hit hpos
    obtain ⟨s, i, rfl⟩ := mem_loop _ _ _ hit
    obtain ⟨hle, hp⟩ := count_down_node_loop_body s i
    obtain ⟨he, hnd, hs, hpo, -⟩ := hp hpos
    rw [loop_body_pre, loop_body_input]
    refine ⟨hs, hpo, hnd, he, ?_, by omega⟩
    rcases loop_body_cases s i with h | ⟨h3, h4⟩ | h | h | ⟨h3, h4, h5, h6⟩ | ⟨h3, h4, h5, h6⟩
    · rw [loop_body_shutdown_top s i h] at hpos; simp at hpos
    · rw [loop_body_shutdown_after s i h3 h4] at hpos; simp at hpos
    · rw [loop_body_ping_fails s i h, down_fx]; simp
    · rw [loop_body_ping_succeeds s i h] at hpos
      simp [count_down_node_up] at hpos
    · rw [loop_body_queue_neg s i h3 h4 h5 h6, down_fx]; simp
    · rw [loop_body_queue_ok s i h3 h4 h5 h6] at hpos
      simp [count_down_node_process_queue] at hpos
  refine ⟨hc, hpass, ?_⟩
  intro hne
  rw [count_down_node_append]
  change count_down_node ((ctor name port).connect open_r).fx +
    count_down_node (all_fx (run name port open_r inputs).2) = 0
  rw [hc, Nat.zero_add]
  have hall : ∀ l : List iteration, (∀ it ∈ l, count_down_node it.fx = 0) →
      count_down_node (all_fx l) = 0 := by
    intro l
    induction l with
    | nil => intro _; simp [all_fx]
    | cons it rest ih =>
      intro hl
      rw [all_fx_cons, count_down_node_append, hl it (List.mem_cons_self _ _),
        ih (fun j hj => hl j (List.mem_cons_of_mem _ hj))]
  apply hall
  intro it hit
  by_contra hcon
  exact hne it hit (hpass it hit (Nat.pos_of_ne_zero hcon)).1

/-- Witness for claim C19: with the options (1, 100) the first failed ping
publishes `down_node` in a pass that read the peer as not down; with the
options (3, 100) three failed pings in a row publish none. -/
theorem down_node_only_at_threshold_one_witness :
    (loop_body { peer with _monitor_threshold := 1, _monitor_interval := 100 }
        (ping_input false (-1)) ∈ (run "node1" 12121 0 failure_run_inputs).2 ∧
      0 < count_down_node
        (loop_body { peer with _monitor_threshold := 1, _monitor_interval := 100 }
          (ping_input false (-1))).fx ∧
      (loop_body { peer with _monitor_threshold := 1, _monitor_interval := 100 }
          (ping_input false (-1))).pre._monitor_threshold = 1) ∧
    ((∀ it ∈ (run "node1" 12121 0 escalation_inputs).2, it.pre._monitor_threshold ≠ 1) ∧
      count_down_node ((run "node1" 12121 0 escalation_inputs).1.fx ++
        all_fx (run "node1" 12121 0 escalation_inputs).2) = 0) :=
  ⟨⟨by decide, by decide,
      ((down_node_only_at_threshold_one "node1" 12121 0 failure_run_inputs).2.1
        (loop_body { peer with _monitor_threshold := 1, _monitor_interval := 100 }
          (ping_input false (-1))) (by decide) (by decide)).1⟩,
    ⟨by decide,
      (down_node_only_at_threshold_one "node1" 12121 0 escalation_inputs).2.2 (by decide)⟩⟩

/-- Once the flag `_shutdown_requested` is set, or with a zero polling
interval, the loop of `operator()` makes at most one tick and that tick does
not call `check_timestamps`. -/
theorem operator_call_of_exit (p : time_watcher_processor) (inputs : List tick_input)
    (h : p._shutdown_requested = true ∨
      (p._polling_interval.tv_sec = 0 ∧ p._polling_interval.tv_nsec = 0)) :
    (time_watcher_processor.operator_call p inputs).length ≤ 1 ∧
    watcher_effect.check_timestamps ∉
      all_watcher_fx (time_watcher_processor.operator_call p inputs) := by
  cases inputs with
  | nil => simp [time_watcher_processor.operator_call, all_watcher_fx]
  | cons i rest =>
    have hex : (p.tick_body i).exited = true ∧
        watcher_effect.check_timestamps ∉ (p.tick_body i).fx := by
      unfold time_watcher_processor.tick_body time_watcher_processor.observe
        time_watcher_processor.request_shutdown
      rcases h with h | h
      · cases i.request_before_test <;> simp [h]
      · cases i.request_before_test <;> cases hp : p._shutdown_requested <;> simp [h, hp]
    simp only [time_watcher_processor.operator_call, hex.1, if_true, all_watcher_fx,
      List.map_cons, List.map_nil, List.flatten_cons, List.flatten_nil, List.append_nil,
      List.length_singleton, le_refl, true_and]
    exact hex.2

/-- Claim C20.  On every tick of `time_watcher_processor::operator()`: if the
shutdown flag is set when it is tested at the top, the tick leaves the loop,
logging the shutdown request, whatever the polling interval is; if it is not
set and the polling interval has `tv_sec = 0` and `tv_nsec = 0`, the tick
leaves the loop, logging that the watch is disabled; in both cases
`check_timestamps` is not called and the tick is the last one.  Otherwise
`check_timestamps` is called exactly once, followed by the sleep step, and the
loop goes on.  Hence, from a state with the flag set or with a zero polling
interval, `check_timestamps` is never called. -/
theorem tick_order (p : time_watcher_processor) (i : tick_input) (rest : List tick_input) :
    ((p.observe i.request_before_test)._shutdown_requested = true →
      (p.tick_body i).exited = true ∧
      (p.tick_body i).fx =
        [watcher_effect.log_info "thread shutdown request -> breaking loop"] ∧
      watcher_effect.check_timestamps ∉ (p.tick_body i).fx ∧
      p.operator_call (i :: rest) = [p.tick_body i]) ∧
    ((p.observe i.request_before_test)._shutdown_requested = false →
      (p._polling_interval.tv_sec = 0 ∧ p._polling_interval.tv_nsec = 0) →
      (p.tick_body i).exited = true ∧
      (p.tick_body i).fx =
        [watcher_effect.log_info "thread watch disabled -> breaking loop"] ∧
      watcher_effect.check_timestamps ∉ (p.tick_body i).fx ∧
      p.operator_call (i :: rest) = [p.tick_body i]) ∧
    ((p.observe i.request_before_test)._shutdown_requested = false →
      ¬ (p._polling_interval.tv_sec = 0 ∧ p._polling_interval.tv_nsec = 0) →
      (p.tick_body i).exited = false ∧
      (p.tick_body i).fx = watcher_effect.check_timestamps ::
        (p.tick_body i).post._sleep_with_shutdown_request_wait ∧
      (p.tick_body i).fx.count watcher_effect.check_timestamps = 1 ∧
      p.operator_call (i :: rest) =
        p.tick_body i :: (p.tick_body i).post.operator_call rest) ∧
    ((p._shutdown_requested = true ∨
        (p._polling_interval.tv_sec = 0 ∧ p._polling_interval.tv_nsec = 0)) →
      (p.operator_call (i :: rest)).length ≤ 1 ∧
      watcher_effect.check_timestamps ∉ all_watcher_fx (p.operator_call (i :: rest))) := by
  have hint : ∀ b : Bool, (p.observe b)._polling_interval = p._polling_interval := by
    intro b; cases b <;> simp [time_watcher_processor.observe,
      time_watcher_processor.request_shutdown]
  refine ⟨?_, ?_, ?_, operator_call_of_exit p (i :: rest)⟩
  · intro h
    have hb : p.tick_body i =
        { pre := p, input := i, post := p.observe i.request_before_test,
          fx := [watcher_effect.log_info "thread shutdown request -> breaking loop"],
          exited := true } := by
      simp [time_watcher_processor.tick_body, h]
    refine ⟨by rw [hb], by rw [hb], by rw [hb]; simp, ?_⟩
    simp only [time_watcher_processor.operator_call]
    rw [hb]; simp
  · intro h hz
    have hz1 : (p.observe i.request_before_test)._polling_interval.tv_sec = 0 ∧
        (p.observe i.request_before_test)._polling_interval.tv_nsec = 0 := by
      rw [hint]; exact hz
    have hb : p.tick_body i =
        { pre := p, input := i, post := p.observe i.request_before_test,
          fx := [watcher_effect.log_info "thread watch disabled -> breaking loop"],
          exited := true } := by
      simp [time_watcher_processor.tick_body, h, hz1]
    refine ⟨by rw [hb], by rw [hb], by rw [hb]; simp, ?_⟩
    simp only [time_watcher_processor.operator_call]
    rw [hb]; simp
  · intro h hz
    have hz1 : ¬ ((p.observe i.request_before_test)._polling_interval.tv_sec = 0 ∧
        (p.observe i.request_before_test)._polling_interval.tv_nsec = 0) := by
      rw [hint]; exact hz
    have hb : p.tick_body i =
        { pre := p, input := i,
          post := (p.observe i.request_before_test).observe i.request_before_sleep,
          fx := watcher_effect.check_timestamps ::
            ((p.observe i.request_before_test).observe
              i.request_before_sleep)._sleep_with_shutdown_request_wait,
          exited := false } := by
      simp only [time_watcher_processor.tick_body, h, hz1, Bool.false_eq_true, if_false]
    refine ⟨by rw [hb], by rw [hb], ?_, ?_⟩
    · rw [hb]
      simp only [time_watcher_processor._sleep_with_shutdown_request_wait]
      split_ifs <;> simp [List.count_cons]
    · simp only [time_watcher_processor.operator_call]
      rw [hb]; simp

/-- Witness for claim C20: with a polling interval of 100 ms the first tick
calls `check_timestamps` once and sleeps; shutdown is requested during the
sleep, and the second tick leaves the loop without calling it. -/
theorem tick_order_witness :
    ((time_watcher_processor.ctor polling_100ms).observe false)._shutdown_requested = false ∧
    ¬ ((time_watcher_processor.ctor polling_100ms)._polling_interval.tv_sec = 0 ∧
      (time_watcher_processor.ctor polling_100ms)._polling_interval.tv_nsec = 0) ∧
    ((time_watcher_processor.ctor polling_100ms).tick_body
        { request_before_test := false, request_before_sleep := false }).fx.count
      watcher_effect.check_timestamps = 1 ∧
    ((time_watcher_processor.ctor polling_100ms).operator_call
        [{ request_before_test := false, request_before_sleep := false },
         { request_before_test := true, request_before_sleep := false },
         { request_before_test := false, request_before_sleep := false }]).map
      (fun t => t.fx) =
      [[watcher_effect.check_timestamps, watcher_effect.mutex_lock,
        watcher_effect.cond_timedwait polling_100ms, watcher_effect.mutex_unlock],
       [watcher_effect.log_info "thread shutdown request -> breaking loop"]] :=
  ⟨by decide, by decide,
    ((tick_order (time_watcher_processor.ctor polling_100ms)
      { request_before_test := false, request_before_sleep := false } []).2.2.1
        (by decide) (by decide)).2.2.1,
    by decide⟩

end flare
